import Mathlib

/-!
Verification of the browser session/resource orchestration subsystem of the
sales-i-address-plotter repository.

The development shallowly embeds the relevant JavaScript, translated from:
  - scripts/browser-manager.mjs   (session manager: launch retry, auth probe)
  - scripts/import-to-mymaps.mjs  (ImportLayer workflow and its retry loop)
  - scripts/create-mymap.mjs      (CreateResource workflow)
  - the list-mymaps script        (ListResources workflow)
  - server.js                     (process orchestrator endpoints)

JavaScript strings are modelled as Lean `String`; `s.includes(t)` becomes the
recursive substring test `strHas`, case-insensitive regular-expression tests
over literal alternations become `strHasCI` over the lowered strings.
-/

namespace AddressPlotter

/-- Substring test helper: `leadsWith pat cs` is true when `pat` is an initial
segment of `cs` (character-by-character). -/
def leadsWith : List Char → List Char → Bool
  | [], _ => true
  | _ :: _, [] => false
  | p :: ps, c :: cs => p = c && leadsWith ps cs

/-- Substring containment on character lists, mirroring JavaScript
`String.prototype.includes`. -/
def hasSub : List Char → List Char → Bool
  | hay, pat =>
    if leadsWith pat hay then true
    else
      match hay with
      | [] => false
      | _ :: rest => hasSub rest pat

/-- JavaScript `s.includes(pat)` (case-sensitive substring containment). -/
def strHas (s pat : String) : Bool :=
  hasSub s.data pat.data

/-- ASCII lowering of a string, mirroring `toLowerCase` on the ASCII
alphabet (all strings compared in this development are ASCII). -/
def lowerAscii (s : String) : String :=
  String.mk (s.data.map Char.toLower)

/-- Case-insensitive substring containment: the model of testing a
case-insensitive regular expression made of literal alternatives. -/
def strHasCI (s pat : String) : Bool :=
  hasSub (s.data.map Char.toLower) (pat.data.map Char.toLower)

/-- Whitespace for the purposes of JavaScript `String.prototype.trim`
(restricted to the ASCII whitespace characters, the only ones appearing in
this development). -/
def jsWsChar (c : Char) : Bool :=
  c = ' ' || c = '\t' || c = '\n' || c = '\r' ||
  c = Char.ofNat 11 || c = Char.ofNat 12

/-- Strip leading and trailing whitespace from a character list. -/
def trimChars (cs : List Char) : List Char :=
  ((cs.dropWhile jsWsChar).reverse.dropWhile jsWsChar).reverse

/-- JavaScript `s.trim()`. -/
def jsTrim (s : String) : String :=
  String.mk (trimChars s.data)

/-- Split a character list at newline characters (JavaScript
`s.split('\n')` semantics: the empty string yields one empty group, a
trailing newline yields a trailing empty group). -/
def splitNl : List Char → List (List Char)
  | [] => [[]]
  | c :: rest =>
    let r := splitNl rest
    if c = '\n' then [] :: r
    else
      match r with
      | g :: gs => (c :: g) :: gs
      | [] => [[c]]

/-- JavaScript `s.split('\n')`. -/
def jsSplitNl (s : String) : List String :=
  (splitNl s.data).map String.mk

/-- JavaScript `s.startsWith(pat)`. -/
def strBegins (s pat : String) : Bool :=
  leadsWith pat.data s.data

/-!
## Session manager: authentication probe (browser-manager.mjs, checkGoogleSession)

`checkGoogleSession(page)` observes the page through five queries: the URL, a
count of credential input fields, a count of sign-in anchor links, and the
three positive My Maps UI markers (create-map text, add-layer text, map-title
aria label).  We package one observation as a `PageSnapshot`.
-/

/-- One observed page snapshot, as sampled by `checkGoogleSession`. -/
structure PageSnapshot where
  url : String
  credentialFieldCount : Nat
  signInLinkCount : Nat
  createMapCount : Nat
  addLayerCount : Nat
  mapTitleCount : Nat
deriving Repr, DecidableEq

/-- The auth-domain URL test of `checkGoogleSession`: the case-insensitive
regular expression
`(accounts\.google\.com|\/signin|\/ServiceLogin|\/challenge|\/CheckCookie|\/accountchooser)`
is an unanchored alternation of literals, so it matches exactly when the URL
contains one of the six literals (case-insensitively). -/
def authUrlMatch (url : String) : Bool :=
  strHasCI url "accounts.google.com" ||
  strHasCI url "/signin" ||
  strHasCI url "/ServiceLogin" ||
  strHasCI url "/challenge" ||
  strHasCI url "/CheckCookie" ||
  strHasCI url "/accountchooser"

/-- Translation of `checkGoogleSession` (browser-manager.mjs lines 223-253):
auth-domain URL wins, then credential fields, then a sign-in link that is not
contradicted by visible My Maps UI; otherwise the session is considered
valid (`true` = authenticated). -/
def checkGoogleSession (p : PageSnapshot) : Bool :=
  if authUrlMatch p.url then false
  else if p.credentialFieldCount > 0 then false
  else
    let hasSignInLink := p.signInLinkCount > 0
    let hasMyMapsUi :=
      p.createMapCount > 0 || p.addLayerCount > 0 || p.mapTitleCount > 0
    if hasSignInLink && !hasMyMapsUi then false else true

/-- Claim C1: `checkGoogleSession` classifies by exactly the four ordered
rules: an auth-domain URL forces Unauthenticated regardless of all other
flags; otherwise credential fields force Unauthenticated; otherwise a sign-in
link with no positive app marker forces Unauthenticated; every remaining
snapshot (in particular one with no credential fields, no sign-in link and no
positive marker) is Authenticated.  Stated as a complete characterisation of
the Unauthenticated outcome. -/
theorem checkGoogleSession_classification (p : PageSnapshot) :
    checkGoogleSession p = false ↔
      (authUrlMatch p.url = true ∨
        (authUrlMatch p.url = false ∧ 0 < p.credentialFieldCount) ∨
        (authUrlMatch p.url = false ∧ p.credentialFieldCount = 0 ∧
          0 < p.signInLinkCount ∧
          p.createMapCount = 0 ∧ p.addLayerCount = 0 ∧ p.mapTitleCount = 0)) := by
  cases hu : authUrlMatch p.url with
  | true => simp [checkGoogleSession, hu]
  | false =>
    rcases Nat.eq_zero_or_pos p.credentialFieldCount with hc | hc
    · simp only [checkGoogleSession, hu, Bool.false_eq_true, if_false, hc,
        lt_irrefl, gt_iff_lt, false_or, false_and, true_and, eq_self_iff_true]
      constructor
      · intro h
        split at h
        · rename_i hcond
          simp only [Bool.and_eq_true, Bool.not_eq_eq_eq_not, Bool.not_true,
            Bool.or_eq_false_iff, decide_eq_true_eq, decide_eq_false_iff_not,
            not_lt, Nat.le_zero] at hcond
          tauto
        · exact absurd h (by simp)
      · rintro ⟨h1, h2, h3, h4⟩
        simp [h1, h2, h3, h4]
    · simp [checkGoogleSession, hu, hc, Nat.pos_iff_ne_zero.mp hc]

/-!
## ImportLayer retry loop (import-to-mymaps.mjs, main, lines 469-510)

`main()` runs `doImport` up to `MAX_RETRIES + 1` times.  We abstract one
attempt's outcome (success, or the thrown error's message) and replay the
loop's control flow, recording the session-manager calls it makes as events.
-/

/-- Outcome of one `doImport` attempt: normal return, or the thrown error's
message. -/
inductive AttemptOutcome where
  | success
  | failure (msg : String)
deriving Repr, DecidableEq

/-- Session-manager calls made by the ImportLayer `main` loop. -/
inductive ImportEvent where
  | attemptRun (n : Nat)
  | closeBrowser
  | forceCleanup
  | waitRetry
deriving Repr, DecidableEq

/-- The retry-classification test of the ImportLayer loop:
`err.message.includes('session expired') || err.message.includes('sign in required')`
(case-sensitive, as in the source). -/
def isSessionErrMsg (m : String) : Bool :=
  strHas m "session expired" || strHas m "sign in required"

/-- Translation of the `for (let attempt = 1; attempt <= MAX_RETRIES + 1; ...)`
loop of import-to-mymaps.mjs `main`: success closes the browser and returns;
a session-expiry failure closes the browser and rethrows immediately; any
other failure closes the browser, forces cleanup, waits, and retries while
attempts remain; when the loop exhausts its attempts the browser is closed
and the last error is rethrown. -/
def importLoop (out : Nat → AttemptOutcome) (maxA attempt : Nat) :
    Except String Unit × List ImportEvent :=
  if _h : maxA < attempt then
    -- the loop body either returns or throws before this point whenever it
    -- starts with attempt ≤ maxA, so this branch is unreachable from
    -- `importMain`; it models the fallback `throw lastError || new Error(...)`
    (Except.error "Import failed after all retries", [ImportEvent.closeBrowser])
  else
    match out attempt with
    | AttemptOutcome.success =>
        (Except.ok (), [ImportEvent.attemptRun attempt, ImportEvent.closeBrowser])
    | AttemptOutcome.failure msg =>
        if isSessionErrMsg msg then
          (Except.error msg, [ImportEvent.attemptRun attempt, ImportEvent.closeBrowser])
        else if attempt < maxA then
          let rest := importLoop out maxA (attempt + 1)
          (rest.1,
            ImportEvent.attemptRun attempt :: ImportEvent.closeBrowser ::
              ImportEvent.forceCleanup :: ImportEvent.waitRetry :: rest.2)
        else
          (Except.error msg, [ImportEvent.attemptRun attempt, ImportEvent.closeBrowser])
termination_by maxA + 1 - attempt

/-- Entry point of the ImportLayer retry loop with `MAX_RETRIES = maxRetries`:
attempts start at 1 and are bounded by `maxRetries + 1`. -/
def importMain (out : Nat → AttemptOutcome) (maxRetries : Nat) :
    Except String Unit × List ImportEvent :=
  importLoop out (maxRetries + 1) 1

/-- The events produced by `k` consecutive retried (non-terminal) failures
starting at attempt number `a`: each failed attempt is followed by a
`closeBrowser`, a `forceCleanup` and a backoff wait. -/
def retryBlocks (a : Nat) : Nat → List ImportEvent
  | 0 => []
  | k + 1 =>
      ImportEvent.attemptRun a :: ImportEvent.closeBrowser ::
        ImportEvent.forceCleanup :: ImportEvent.waitRetry :: retryBlocks (a + 1) k

/-- A predicate for an attempt outcome that the loop retries: a failure whose
message does not indicate session expiry. -/
def retriableFailure (o : AttemptOutcome) : Prop :=
  ∃ m, o = AttemptOutcome.failure m ∧ isSessionErrMsg m = false

/-- Skipping lemma: while every attempt in `[a, a+k)` is a retriable failure
and attempts remain, the loop emits the corresponding cleanup blocks and
continues from attempt `a + k`. -/
theorem importLoop_skip (out : Nat → AttemptOutcome) (maxA : Nat) :
    ∀ k a, a + k ≤ maxA →
      (∀ j, a ≤ j → j < a + k → retriableFailure (out j)) →
      importLoop out maxA a =
        ((importLoop out maxA (a + k)).1,
          retryBlocks a k ++ (importLoop out maxA (a + k)).2) := by
  intro k
  induction k with
  | zero => intro a _ _; simp [retryBlocks]
  | succ k ih =>
      intro a hle hfail
      obtain ⟨m, hm, hms⟩ := hfail a (Nat.le_refl a) (by omega)
      have ha : ¬ maxA < a := by omega
      have halt : a < maxA := by omega
      rw [importLoop, dif_neg ha, hm]
      simp only [hms, Bool.false_eq_true, if_false, halt, if_true]
      have hrec := ih (a + 1) (by omega) (fun j h1 h2 => hfail j (by omega) (by omega))
      have hadd : a + 1 + k = a + (k + 1) := by omega
      rw [hadd] at hrec
      rw [hrec]
      simp [retryBlocks]

/-- Claim C2: in the ImportLayer workflow loop, a failed attempt whose error
message indicates session expiry is never retried (the browser is closed and
the error propagates immediately); every other failure is retried as a whole
unit with forced session cleanup (`closeBrowser` then `forceCleanup`) between
attempts, up to `MAX_RETRIES + 1` total attempts; after the last attempt
fails, the last error propagates.  The three scenario families (session
failure at attempt `k1`, success at attempt `k2`, all attempts failing)
are characterised exactly, trace included. -/
theorem import_retry_policy (maxRetries : Nat)
    (out1 out2 out3 : Nat → AttemptOutcome)
    (k1 k2 : Nat) (m1 : String)
    (hk1a : 1 ≤ k1) (hk1b : k1 ≤ maxRetries + 1)
    (hpre1 : ∀ j, 1 ≤ j → j < k1 → retriableFailure (out1 j))
    (hses : out1 k1 = AttemptOutcome.failure m1) (hm1 : isSessionErrMsg m1 = true)
    (hk2a : 1 ≤ k2) (hk2b : k2 ≤ maxRetries + 1)
    (hpre2 : ∀ j, 1 ≤ j → j < k2 → retriableFailure (out2 j))
    (hsucc : out2 k2 = AttemptOutcome.success)
    (hpre3 : ∀ j, 1 ≤ j → j ≤ maxRetries + 1 → retriableFailure (out3 j)) :
    importMain out1 maxRetries =
      (Except.error m1,
        retryBlocks 1 (k1 - 1) ++
          [ImportEvent.attemptRun k1, ImportEvent.closeBrowser]) ∧
    importMain out2 maxRetries =
      (Except.ok (),
        retryBlocks 1 (k2 - 1) ++
          [ImportEvent.attemptRun k2, ImportEvent.closeBrowser]) ∧
    (∀ m, out3 (maxRetries + 1) = AttemptOutcome.failure m →
      importMain out3 maxRetries =
        (Except.error m,
          retryBlocks 1 maxRetries ++
            [ImportEvent.attemptRun (maxRetries + 1), ImportEvent.closeBrowser])) := by
  refine ⟨?_, ?_, ?_⟩
  · have h := importLoop_skip out1 (maxRetries + 1) (k1 - 1) 1 (by omega)
      (fun j h1 h2 => hpre1 j h1 (by omega))
    have hk : 1 + (k1 - 1) = k1 := by omega
    rw [importMain, h, hk]
    rw [importLoop, dif_neg (by omega), hses]
    simp [hm1]
  · have h := importLoop_skip out2 (maxRetries + 1) (k2 - 1) 1 (by omega)
      (fun j h1 h2 => hpre2 j h1 (by omega))
    have hk : 1 + (k2 - 1) = k2 := by omega
    rw [importMain, h, hk]
    rw [importLoop, dif_neg (by omega), hsucc]
  · intro m hm
    have h := importLoop_skip out3 (maxRetries + 1) maxRetries 1 (by omega)
      (fun j h1 h2 => hpre3 j h1 (by omega))
    have hk : 1 + maxRetries = maxRetries + 1 := by omega
    rw [importMain, h, hk]
    rw [importLoop, dif_neg (by omega), hm]
    have : ¬ maxRetries + 1 < maxRetries + 1 := by omega
    obtain ⟨mm, hmm, hms⟩ := hpre3 (maxRetries + 1) (by omega) (by omega)
    rw [hm] at hmm
    cases hmm
    simp [hms, this]

/-- Witness for `import_retry_policy` at `MAX_RETRIES = 2` (the source
default): a session-expiry failure at attempt 2 after one transient failure,
a success at attempt 3 after two transient failures, and three straight
transient failures. -/
theorem import_retry_policy_witness :
    importMain
      (fun n => if n = 1 then AttemptOutcome.failure "timeout"
        else AttemptOutcome.failure "Google session expired - sign in required.") 2 =
      (Except.error "Google session expired - sign in required.",
        [ImportEvent.attemptRun 1, ImportEvent.closeBrowser, ImportEvent.forceCleanup,
          ImportEvent.waitRetry, ImportEvent.attemptRun 2, ImportEvent.closeBrowser]) ∧
    importMain
      (fun n => if n ≤ 2 then AttemptOutcome.failure "Could not click Import button"
        else AttemptOutcome.success) 2 =
      (Except.ok (),
        [ImportEvent.attemptRun 1, ImportEvent.closeBrowser, ImportEvent.forceCleanup,
          ImportEvent.waitRetry, ImportEvent.attemptRun 2, ImportEvent.closeBrowser,
          ImportEvent.forceCleanup, ImportEvent.waitRetry, ImportEvent.attemptRun 3,
          ImportEvent.closeBrowser]) ∧
    importMain (fun _ => AttemptOutcome.failure "element not found") 2 =
      (Except.error "element not found",
        [ImportEvent.attemptRun 1, ImportEvent.closeBrowser, ImportEvent.forceCleanup,
          ImportEvent.waitRetry, ImportEvent.attemptRun 2, ImportEvent.closeBrowser,
          ImportEvent.forceCleanup, ImportEvent.waitRetry, ImportEvent.attemptRun 3,
          ImportEvent.closeBrowser]) := by
  have h := import_retry_policy 2
    (fun n => if n = 1 then AttemptOutcome.failure "timeout"
      else AttemptOutcome.failure "Google session expired - sign in required.")
    (fun n => if n ≤ 2 then AttemptOutcome.failure "Could not click Import button"
      else AttemptOutcome.success)
    (fun _ => AttemptOutcome.failure "element not found")
    2 3 "Google session expired - sign in required."
    (by decide) (by decide)
    (by intro j h1 h2
        refine ⟨"timeout", ?_, by decide⟩
        have : j = 1 := by omega
        simp [this])
    (by decide) (by decide)
    (by decide) (by decide)
    (by intro j h1 h2
        refine ⟨"Could not click Import button", ?_, by decide⟩
        have : j ≤ 2 := by omega
        simp [this])
    (by decide)
    (by intro j h1 h2
        exact ⟨"element not found", rfl, by decide⟩)
  refine ⟨?_, ?_, ?_⟩
  · have := h.1
    simpa [retryBlocks] using this
  · have := h.2.1
    simpa [retryBlocks] using this
  · have := h.2.2 "element not found" rfl
    simpa [retryBlocks] using this

/-!
## Session manager: launch retry (browser-manager.mjs, getBrowser, lines 97-160)

A launch attempt is `launchPersistentContextWithFallback`: try the Chrome
channel first, fall back to the bundled Chromium on any failure.  `getBrowser`
runs up to `max 1 (LAUNCH_RETRIES + 1)` attempts; a `ProcessSingleton`
(profile-lock) failure triggers lock cleanup, a fixed backoff and a retry,
while any other failure — or a lock failure on the final attempt — is thrown.
A browser context handle is abstracted as a `Nat`.
-/

/-- Abstract handle to a launched persistent browser context. -/
abbrev BrowserCtx := Nat

/-- The profile-lock test of `isProcessSingletonError`: the thrown message
contains one of the three lock-contention markers (case-sensitive). -/
def isProcessSingletonErr (msg : String) : Bool :=
  strHas msg "ProcessSingleton" ||
  strHas msg "profile directory is already in use" ||
  strHas msg "user data directory is already in use"

/-- Translation of `launchPersistentContextWithFallback`: the Chrome-channel
launch result is preferred; on its failure the bundled-browser launch result
is returned (whether it succeeds or fails). -/
def launchWithFallback (chrome bundled : Except String BrowserCtx) :
    Except String BrowserCtx :=
  match chrome with
  | Except.ok c => Except.ok c
  | Except.error _ => bundled

/-- Observable actions of the `getBrowser` launch loop. -/
inductive LaunchEvent where
  | cleanupProcesses
  | attemptLaunch (n : Nat)
  | waitBackoff
deriving Repr, DecidableEq

/-- The outcome of attempt number `n`, given the per-attempt results of the
Chrome-channel launch and of the bundled-browser launch. -/
def attemptOutcome (att : Nat → Except String BrowserCtx × Except String BrowserCtx)
    (n : Nat) : Except String BrowserCtx :=
  launchWithFallback (att n).1 (att n).2

/-- Translation of the `for (let attempt = 1; attempt <= maxAttempts; ...)`
loop of `getBrowser`: each attempt launches with fallback; success returns the
context; a profile-lock error with attempts remaining removes lock artifacts,
kills orphaned processes, waits a fixed backoff and retries; any other error,
or a lock error on the final attempt, is thrown. -/
def getBrowserLoop (att : Nat → Except String BrowserCtx × Except String BrowserCtx)
    (maxA attempt : Nat) : Except String BrowserCtx × List LaunchEvent :=
  if _h : maxA < attempt then
    -- unreachable from `getBrowserModel` (the loop returns or throws first);
    -- models the trailing `return browserContext`
    (Except.error "launch loop exited", [])
  else
    match attemptOutcome att attempt with
    | Except.ok c => (Except.ok c, [LaunchEvent.attemptLaunch attempt])
    | Except.error e =>
        if isProcessSingletonErr e ∧ attempt < maxA then
          let rest := getBrowserLoop att maxA (attempt + 1)
          (rest.1,
            LaunchEvent.attemptLaunch attempt :: LaunchEvent.cleanupProcesses ::
              LaunchEvent.waitBackoff :: rest.2)
        else
          (Except.error e, [LaunchEvent.attemptLaunch attempt])
termination_by maxA + 1 - attempt

/-- Translation of `getBrowser` for a fresh process (no reusable in-memory
context): one pre-loop cleanup, then the launch loop with
`maxAttempts = max 1 (LAUNCH_RETRIES + 1)` attempts. -/
def getBrowserModel (att : Nat → Except String BrowserCtx × Except String BrowserCtx)
    (launchRetries : Nat) : Except String BrowserCtx × List LaunchEvent :=
  let res := getBrowserLoop att (max 1 (launchRetries + 1)) 1
  (res.1, LaunchEvent.cleanupProcesses :: res.2)

/-- Events of `k` consecutive lock-contention failures starting at attempt
`a`: each failed attempt is followed by lock cleanup and a backoff wait. -/
def lockBlocks (a : Nat) : Nat → List LaunchEvent
  | 0 => []
  | k + 1 =>
      LaunchEvent.attemptLaunch a :: LaunchEvent.cleanupProcesses ::
        LaunchEvent.waitBackoff :: lockBlocks (a + 1) k

/-- An attempt outcome that the launch loop retries: an error whose message
matches the profile-lock pattern. -/
def lockFailure (r : Except String BrowserCtx) : Prop :=
  ∃ m, r = Except.error m ∧ isProcessSingletonErr m = true

/-- Skipping lemma for the launch loop over consecutive lock failures. -/
theorem getBrowserLoop_skip (att : Nat → Except String BrowserCtx × Except String BrowserCtx)
    (maxA : Nat) :
    ∀ k a, a + k ≤ maxA →
      (∀ j, a ≤ j → j < a + k → lockFailure (attemptOutcome att j)) →
      getBrowserLoop att maxA a =
        ((getBrowserLoop att maxA (a + k)).1,
          lockBlocks a k ++ (getBrowserLoop att maxA (a + k)).2) := by
  intro k
  induction k with
  | zero => intro a _ _; simp [lockBlocks]
  | succ k ih =>
      intro a hle hfail
      obtain ⟨m, hm, hms⟩ := hfail a (Nat.le_refl a) (by omega)
      have ha : ¬ maxA < a := by omega
      have halt : a < maxA := by omega
      rw [getBrowserLoop, dif_neg ha, hm]
      simp only [hms, halt, and_self, if_true, true_and]
      have hrec := ih (a + 1) (by omega) (fun j h1 h2 => hfail j (by omega) (by omega))
      have hadd : a + 1 + k = a + (k + 1) := by omega
      rw [hadd] at hrec
      rw [hrec]
      simp [lockBlocks]

/-- Claim C3: each `getBrowser` launch attempt prefers the Chrome-channel
configuration and falls back to the bundled browser on its failure; lock
(ProcessSingleton) failures trigger cleanup, backoff and retry up to
`max 1 (LAUNCH_RETRIES + 1)` attempts; success on any attempt within the
bound — in particular after two consecutive lock failures — returns the
context with no error; a non-lock error, or exhausting all attempts, throws
the error to the caller. -/
theorem getBrowser_launch_retry (launchRetries : Nat)
    (att1 att2 att3 : Nat → Except String BrowserCtx × Except String BrowserCtx)
    (k1 k2 : Nat) (c : BrowserCtx) (e2 : String)
    (bundled : Except String BrowserCtx)
    (hk1a : 1 ≤ k1) (hk1b : k1 ≤ max 1 (launchRetries + 1))
    (hpre1 : ∀ j, 1 ≤ j → j < k1 → lockFailure (attemptOutcome att1 j))
    (hok : attemptOutcome att1 k1 = Except.ok c)
    (hk2a : 1 ≤ k2) (hk2b : k2 ≤ max 1 (launchRetries + 1))
    (hpre2 : ∀ j, 1 ≤ j → j < k2 → lockFailure (attemptOutcome att2 j))
    (herr : attemptOutcome att2 k2 = Except.error e2)
    (hnl : isProcessSingletonErr e2 = false)
    (hpre3 : ∀ j, 1 ≤ j → j ≤ max 1 (launchRetries + 1) →
      lockFailure (attemptOutcome att3 j)) :
    (∀ x, launchWithFallback (Except.ok x) bundled = Except.ok x) ∧
    (∀ msg, launchWithFallback (Except.error msg) bundled = bundled) ∧
    getBrowserModel att1 launchRetries =
      (Except.ok c,
        LaunchEvent.cleanupProcesses ::
          (lockBlocks 1 (k1 - 1) ++ [LaunchEvent.attemptLaunch k1])) ∧
    getBrowserModel att2 launchRetries =
      (Except.error e2,
        LaunchEvent.cleanupProcesses ::
          (lockBlocks 1 (k2 - 1) ++ [LaunchEvent.attemptLaunch k2])) ∧
    (∀ m, attemptOutcome att3 (max 1 (launchRetries + 1)) = Except.error m →
      getBrowserModel att3 launchRetries =
        (Except.error m,
          LaunchEvent.cleanupProcesses ::
            (lockBlocks 1 (max 1 (launchRetries + 1) - 1) ++
              [LaunchEvent.attemptLaunch (max 1 (launchRetries + 1))]))) := by
  refine ⟨fun x => rfl, fun msg => rfl, ?_, ?_, ?_⟩
  · have h := getBrowserLoop_skip att1 (max 1 (launchRetries + 1)) (k1 - 1) 1 (by omega)
      (fun j h1 h2 => hpre1 j h1 (by omega))
    have hk : 1 + (k1 - 1) = k1 := by omega
    rw [getBrowserModel]
    rw [h, hk]
    rw [getBrowserLoop, dif_neg (by omega), hok]
  · have h := getBrowserLoop_skip att2 (max 1 (launchRetries + 1)) (k2 - 1) 1 (by omega)
      (fun j h1 h2 => hpre2 j h1 (by omega))
    have hk : 1 + (k2 - 1) = k2 := by omega
    rw [getBrowserModel]
    rw [h, hk]
    rw [getBrowserLoop, dif_neg (by omega), herr]
    simp [hnl]
  · intro m hm
    have h := getBrowserLoop_skip att3 (max 1 (launchRetries + 1))
      (max 1 (launchRetries + 1) - 1) 1 (by omega)
      (fun j h1 h2 => hpre3 j h1 (by omega))
    have hk : 1 + (max 1 (launchRetries + 1) - 1) = max 1 (launchRetries + 1) := by omega
    rw [getBrowserModel]
    rw [h, hk]
    rw [getBrowserLoop, dif_neg (by omega), hm]
    have hlt : ¬ (max 1 (launchRetries + 1)) < max 1 (launchRetries + 1) := by omega
    simp [hlt]

/-- Witness for `getBrowser_launch_retry` at `LAUNCH_RETRIES = 3` (the source
default, giving 4 attempts): two lock-contention failures followed by a
successful third attempt yield the context with no error; a non-lock error at
attempt 1 throws at once; four straight lock failures exhaust the bound and
throw the last error. -/
theorem getBrowser_launch_retry_witness :
    getBrowserModel
      (fun n => if n ≤ 2
        then (Except.error "browser ProcessSingleton lock", Except.error "ProcessSingleton again")
        else (Except.ok 7, Except.error "unused")) 3 =
      (Except.ok 7,
        [LaunchEvent.cleanupProcesses, LaunchEvent.attemptLaunch 1,
          LaunchEvent.cleanupProcesses, LaunchEvent.waitBackoff,
          LaunchEvent.attemptLaunch 2, LaunchEvent.cleanupProcesses,
          LaunchEvent.waitBackoff, LaunchEvent.attemptLaunch 3]) ∧
    getBrowserModel
      (fun _ => (Except.error "chrome missing", Except.error "executable not found")) 3 =
      (Except.error "executable not found",
        [LaunchEvent.cleanupProcesses, LaunchEvent.attemptLaunch 1]) ∧
    getBrowserModel
      (fun _ => (Except.error "ProcessSingleton", Except.error "profile directory is already in use")) 3 =
      (Except.error "profile directory is already in use",
        [LaunchEvent.cleanupProcesses, LaunchEvent.attemptLaunch 1,
          LaunchEvent.cleanupProcesses, LaunchEvent.waitBackoff,
          LaunchEvent.attemptLaunch 2, LaunchEvent.cleanupProcesses,
          LaunchEvent.waitBackoff, LaunchEvent.attemptLaunch 3,
          LaunchEvent.cleanupProcesses, LaunchEvent.waitBackoff,
          LaunchEvent.attemptLaunch 4]) := by
  have h := getBrowser_launch_retry 3
    (fun n => if n ≤ 2
      then (Except.error "browser ProcessSingleton lock", Except.error "ProcessSingleton again")
      else (Except.ok 7, Except.error "unused"))
    (fun _ => (Except.error "chrome missing", Except.error "executable not found"))
    (fun _ => (Except.error "ProcessSingleton", Except.error "profile directory is already in use"))
    3 1 7 "executable not found" (Except.error "unused bundled")
    (by decide) (by decide)
    (by intro j h1 h2
        refine ⟨"ProcessSingleton again", ?_, by decide⟩
        have : j ≤ 2 := by omega
        simp [attemptOutcome, launchWithFallback, this])
    (by have : ¬ (3 : Nat) ≤ 2 := by decide
        simp [attemptOutcome, launchWithFallback, this])
    (by decide) (by decide)
    (by intro j h1 h2; omega)
    rfl (by decide)
    (by intro j h1 h2
        exact ⟨"profile directory is already in use", rfl, by decide⟩)
  refine ⟨?_, ?_, ?_⟩
  · have := h.2.2.1
    simpa [lockBlocks] using this
  · have := h.2.2.2.1
    simpa [lockBlocks] using this
  · have := h.2.2.2.2 "profile directory is already in use" rfl
    simpa [lockBlocks] using this

/-!
## JSON values, JSON.parse and JSON.stringify

The orchestrator parses workflow result lines with `JSON.parse` and the
workflows emit result lines with `JSON.stringify`.  We model JSON values with
numbers as mantissa/exponent pairs (their exact value is never needed, only
truthiness), and implement a fuel-bounded recursive-descent parser following
the JSON grammar (leading-zero rule, escape sequences, the four whitespace
characters).  A `\uXXXX` escape denoting a surrogate code unit is modelled as
the null character (Lean chars are scalar values); no string in this
development contains surrogates.
-/

/-- A JSON value.  Numbers are kept as `mant * 10 ^ exp10`. -/
inductive Json where
  | jnull
  | jbool (b : Bool)
  | jnum (mant : Int) (exp10 : Int)
  | jstr (s : String)
  | jarr (elts : List Json)
  | jobj (fields : List (String × Json))
deriving Repr

/-- The opening-brace character, written by code point. -/
def lbraceChar : Char := Char.ofNat 123

/-- The closing-brace character, written by code point. -/
def rbraceChar : Char := Char.ofNat 125

/-- The four JSON whitespace characters. -/
def jsonWsChar (c : Char) : Bool :=
  c = ' ' || c = '\t' || c = '\n' || c = '\r'

/-- Drop leading JSON whitespace. -/
def skipWs : List Char → List Char
  | [] => []
  | c :: rest => if jsonWsChar c then skipWs rest else c :: rest

/-- Match a literal keyword suffix (the `ull` of `null`, etc.). -/
def dropLit : List Char → List Char → Option (List Char)
  | [], cs => some cs
  | _ :: _, [] => none
  | l :: ls, c :: cs => if l = c then dropLit ls cs else none

/-- Value of a hexadecimal digit. -/
def hexVal (c : Char) : Option Nat :=
  if '0' ≤ c ∧ c ≤ '9' then some (c.toNat - 48)
  else if 'a' ≤ c ∧ c ≤ 'f' then some (c.toNat - 87)
  else if 'A' ≤ c ∧ c ≤ 'F' then some (c.toNat - 55)
  else none

/-- Parse the body of a JSON string (after the opening quote), returning the
decoded characters and the remaining input. -/
def parseStrChars : Nat → List Char → Option (List Char × List Char)
  | 0, _ => none
  | _ + 1, [] => none
  | fuel + 1, c :: rest =>
    if c = '"' then some ([], rest)
    else if c = '\\' then
      match rest with
      | [] => none
      | e :: r2 =>
        if e = '"' ∨ e = '\\' ∨ e = '/' then
          match parseStrChars fuel r2 with
          | some (cs, r) => some (e :: cs, r)
          | none => none
        else if e = 'b' then
          match parseStrChars fuel r2 with
          | some (cs, r) => some (Char.ofNat 8 :: cs, r)
          | none => none
        else if e = 'f' then
          match parseStrChars fuel r2 with
          | some (cs, r) => some (Char.ofNat 12 :: cs, r)
          | none => none
        else if e = 'n' then
          match parseStrChars fuel r2 with
          | some (cs, r) => some ('\n' :: cs, r)
          | none => none
        else if e = 'r' then
          match parseStrChars fuel r2 with
          | some (cs, r) => some ('\r' :: cs, r)
          | none => none
        else if e = 't' then
          match parseStrChars fuel r2 with
          | some (cs, r) => some ('\t' :: cs, r)
          | none => none
        else if e = 'u' then
          match r2 with
          | h1 :: h2 :: h3 :: h4 :: r3 =>
            match hexVal h1, hexVal h2, hexVal h3, hexVal h4 with
            | some v1, some v2, some v3, some v4 =>
              match parseStrChars fuel r3 with
              | some (cs, r) =>
                  some (Char.ofNat (((v1 * 16 + v2) * 16 + v3) * 16 + v4) :: cs, r)
              | none => none
            | _, _, _, _ => none
          | _ => none
        else none
    else if c.toNat < 32 then none
    else
      match parseStrChars fuel rest with
      | some (cs, r) => some (c :: cs, r)
      | none => none

/-- Numeric value of a digit string. -/
def natFromDigits (ds : List Char) : Nat :=
  ds.foldl (fun a c => a * 10 + (c.toNat - 48)) 0

/-- Parse a JSON number starting at the current character: optional minus,
integer part with the leading-zero rule, optional fraction, optional
exponent. -/
def parseNum (cs : List Char) : Option (Json × List Char) :=
  let signed := match cs with
    | c :: rest => if c = '-' then (true, rest) else (false, cs)
    | [] => (false, [])
  match signed.2 with
  | [] => none
  | c :: rest =>
    let intRes : Option (List Char × List Char) :=
      if c = '0' then some ([c], rest)
      else if c.isDigit then some (signed.2.takeWhile Char.isDigit, signed.2.dropWhile Char.isDigit)
      else none
    match intRes with
    | none => none
    | some (intDs, afterInt) =>
      let fracRes : Option (List Char × List Char) :=
        match afterInt with
        | '.' :: r3 =>
          let fds := r3.takeWhile Char.isDigit
          if fds.isEmpty then none else some (fds, r3.dropWhile Char.isDigit)
        | _ => some ([], afterInt)
      match fracRes with
      | none => none
      | some (fracDs, afterFrac) =>
        let expRes : Option (Int × List Char) :=
          match afterFrac with
          | e :: r4 =>
            if e = 'e' ∨ e = 'E' then
              let esigned : Bool × List Char := match r4 with
                | s :: r5 =>
                  if s = '-' then (true, r5)
                  else if s = '+' then (false, r5)
                  else (false, r4)
                | [] => (false, [])
              let eds := esigned.2.takeWhile Char.isDigit
              if eds.isEmpty then none
              else
                let ev : Int := Int.ofNat (natFromDigits eds)
                some (if esigned.1 then -ev else ev, esigned.2.dropWhile Char.isDigit)
            else some (0, afterFrac)
          | [] => some (0, [])
        match expRes with
        | none => none
        | some (ev, afterExp) =>
          let mant : Int := Int.ofNat (natFromDigits (intDs ++ fracDs))
          some (Json.jnum (if signed.1 then -mant else mant)
            (ev - Int.ofNat fracDs.length), afterExp)

mutual

/-- Parse one JSON value, returning it with the unconsumed input. -/
def parseVal : Nat → List Char → Option (Json × List Char)
  | 0, _ => none
  | fuel + 1, cs =>
    match skipWs cs with
    | [] => none
    | c :: rest =>
      if c = 'n' then
        match dropLit ['u', 'l', 'l'] rest with
        | some r => some (Json.jnull, r)
        | none => none
      else if c = 't' then
        match dropLit ['r', 'u', 'e'] rest with
        | some r => some (Json.jbool true, r)
        | none => none
      else if c = 'f' then
        match dropLit ['a', 'l', 's', 'e'] rest with
        | some r => some (Json.jbool false, r)
        | none => none
      else if c = '"' then
        match parseStrChars (rest.length + 1) rest with
        | some (chars, r) => some (Json.jstr (String.mk chars), r)
        | none => none
      else if c = '[' then
        match skipWs rest with
        | ']' :: r2 => some (Json.jarr [], r2)
        | cs2 =>
          match parseVal fuel cs2 with
          | some (v, r2) => parseArrTail fuel [v] r2
          | none => none
      else if c = lbraceChar then
        match skipWs rest with
        | [] => none
        | d :: r2 =>
          if d = rbraceChar then some (Json.jobj [], r2)
          else
            match parseMember fuel (d :: r2) with
            | some (kv, r3) => parseObjTail fuel [kv] r3
            | none => none
      else if c = '-' ∨ c.isDigit then parseNum (c :: rest)
      else none

/-- Parse one `"key": value` object member. -/
def parseMember : Nat → List Char → Option ((String × Json) × List Char)
  | 0, _ => none
  | fuel + 1, cs =>
    match skipWs cs with
    | [] => none
    | c :: rest =>
      if c = '"' then
        match parseStrChars (rest.length + 1) rest with
        | some (kchars, r1) =>
          match skipWs r1 with
          | ':' :: r2 =>
            match parseVal fuel r2 with
            | some (v, r3) => some ((String.mk kchars, v), r3)
            | none => none
          | _ => none
        | none => none
      else none

/-- Parse the continuation of an array after its first element. -/
def parseArrTail : Nat → List Json → List Char → Option (Json × List Char)
  | 0, _, _ => none
  | fuel + 1, acc, cs =>
    match skipWs cs with
    | [] => none
    | c :: rest =>
      if c = ',' then
        match parseVal fuel rest with
        | some (v, r2) => parseArrTail fuel (acc ++ [v]) r2
        | none => none
      else if c = ']' then some (Json.jarr acc, rest)
      else none

/-- Parse the continuation of an object after its first member. -/
def parseObjTail : Nat → List (String × Json) → List Char → Option (Json × List Char)
  | 0, _, _ => none
  | fuel + 1, acc, cs =>
    match skipWs cs with
    | [] => none
    | c :: rest =>
      if c = ',' then
        match parseMember fuel rest with
        | some (kv, r2) => parseObjTail fuel (acc ++ [kv]) r2
        | none => none
      else if c = rbraceChar then some (Json.jobj acc, rest)
      else none

end

/-- The model of `JSON.parse`: parse one value and require only whitespace
after it.  The fuel bound exceeds the maximal possible nesting depth, so it
never cuts off a well-formed input. -/
def parseJson (s : String) : Option Json :=
  match parseVal (s.data.length + 2) s.data with
  | some (v, rest) => if (skipWs rest).isEmpty then some v else none
  | none => none

/-- JavaScript truthiness of a JSON value (`undefined` is represented by
`Option.none` at use sites). -/
def jsTruthy : Json → Bool
  | Json.jnull => false
  | Json.jbool b => b
  | Json.jnum m _ => m ≠ 0
  | Json.jstr s => s ≠ ""
  | Json.jarr _ => true
  | Json.jobj _ => true

/-- Last-wins field lookup, as in a JavaScript object built by `JSON.parse`
(later duplicate keys override earlier ones). -/
def getFieldLast (fields : List (String × Json)) (k : String) : Option Json :=
  fields.foldl (fun acc kv => if kv.1 = k then some kv.2 else acc) none

/-- JavaScript property access `v.k` on a parsed JSON value: `undefined`
(`none`) unless `v` is an object with the field. -/
def jsProp (v : Json) (k : String) : Option Json :=
  match v with
  | Json.jobj fs => getFieldLast fs k
  | _ => none

/-- Lower-case hexadecimal digit. -/
def hexDigitLower (n : Nat) : Char :=
  if n < 10 then Char.ofNat (48 + n) else Char.ofNat (87 + n)

/-- `JSON.stringify` escaping of one string character. -/
def escJsonChar (c : Char) : String :=
  if c = '"' then "\\\""
  else if c = '\\' then "\\\\"
  else if c = '\n' then "\\n"
  else if c = '\r' then "\\r"
  else if c = '\t' then "\\t"
  else if c = Char.ofNat 8 then "\\b"
  else if c = Char.ofNat 12 then "\\f"
  else if c.toNat < 32 then
    String.mk ['\\', 'u', '0', '0', hexDigitLower (c.toNat / 16), hexDigitLower (c.toNat % 16)]
  else String.singleton c

/-- `JSON.stringify` of a string. -/
def quoteJson (s : String) : String :=
  "\"" ++ String.join (s.data.map escJsonChar) ++ "\""

/-!
## Process orchestrator (server.js)

Each endpoint spawns a workflow subprocess and reacts to it.  We model the
observable outcome of a subprocess as a `ProcEvent` — either the `close` event
with exit code and the captured streams, or the request timeout firing first —
and each endpoint's handler as the list of server actions it performs.

The `req.setTimeout` transcriptions: the listing endpoint registers a handler
that kills the child and responds with a timeout error (server.js lines
323-328); the creation endpoint calls `req.setTimeout(90000)` and the import
endpoint calls `req.setTimeout(MYMAPS_IMPORT_TIMEOUT_MS)` with **no handler**
(lines 377 and 408), so on timeout the server code itself performs no action
(no kill, no error payload).
-/

/-- Server actions the endpoint handlers can perform. -/
inductive ServerAct where
  | respond (status : Nat) (body : Json)
  | killChild
  | launchAuth
deriving Repr

/-- Observable subprocess outcome seen by an endpoint. -/
inductive ProcEvent where
  | closed (code : Int) (stdout stderr : String)
  | timedOut
deriving Repr

/-- Translation of `isSessionExpiredError` (server.js lines 69-78):
case-insensitive containment of one of the four authentication-expiry
phrases, with empty input short-circuited to false. -/
def isSessionExpiredError (msg : String) : Bool :=
  if msg = "" then false
  else
    strHas (lowerAscii msg) "session expired" ||
    strHas (lowerAscii msg) "sign in required" ||
    strHas (lowerAscii msg) "verify it" ||
    strHas (lowerAscii msg) "re-authenticate"

/-- The last stdout line (after trimming the whole capture and splitting on
newlines) that satisfies the shape filter. -/
def selectLastLine (p : String → Bool) (stdout : String) : Option String :=
  ((jsSplitNl (jsTrim stdout)).filter p).getLast?

/-- The listing result shape filter: a trimmed line starting with a bracket. -/
def listShape (s : String) : Bool := strBegins (jsTrim s) "["

/-- The creation result shape filter: a trimmed line starting with an opening
brace. -/
def objShape (s : String) : Bool := strBegins (jsTrim s) "\x7b"

/-- The non-zero-exit message of the listing endpoint:
`stderr?.trim() || 'Failed to list maps'`. -/
def listFailMsg (stderr : String) : String :=
  if jsTrim stderr = "" then "Failed to list maps" else jsTrim stderr

/-- The manual-map-id hint appended to listing errors. -/
def listHint : String :=
  " You can enter your map ID manually below (from the My Maps URL: .../edit?mid=XXXXX)."

/-- The zero-exit reply of the listing endpoint as a function of the selected
result line: parse it; an array is returned as the map list, any other JSON
value yields an empty list, and a parse failure is a 500 error. -/
def listZeroReply (line : String) : List ServerAct :=
  match parseJson line with
  | some (Json.jarr xs) => [ServerAct.respond 200 (Json.jobj [("maps", Json.jarr xs)])]
  | some _ => [ServerAct.respond 200 (Json.jobj [("maps", Json.jarr [])])]
  | none =>
      [ServerAct.respond 500
        (Json.jobj [("error", Json.jstr "Invalid map list output"), ("maps", Json.jarr [])])]

/-- Translation of the listing endpoint's `close` handler (server.js lines
299-319): non-zero exit surfaces the stderr-derived message (launching the
auth browser when the expiry phrase is found in that message **or** in the
captured stdout); zero exit selects the last bracket-shaped stdout line,
defaulting to the empty-array literal when none exists. -/
def listOnClose (code : Int) (stdout stderr : String) : List ServerAct :=
  if code ≠ 0 then
    let msg := listFailMsg stderr
    (if isSessionExpiredError msg || isSessionExpiredError stdout
      then [ServerAct.launchAuth] else []) ++
      [ServerAct.respond 500
        (Json.jobj [("error", Json.jstr (msg ++ listHint)), ("maps", Json.jarr [])])]
  else
    let line := match selectLastLine listShape stdout with
      | some l => l
      | none => "[]"
    listZeroReply line

/-- The non-zero-exit message of the creation endpoint. -/
def createFailMsg (stderr : String) : String :=
  if jsTrim stderr = "" then "Failed to create map" else jsTrim stderr

/-- The zero-exit reply of the creation endpoint as a function of the selected
result line: parse it and require a truthy `mid` property; otherwise a 500
error.  The JavaScript appends the runtime's own `SyntaxError` message to the
parse-failure reply; that environment-specific text is modelled as empty. -/
def createZeroReply (line : String) : List ServerAct :=
  match parseJson line with
  | some v =>
    match jsProp v "mid" with
    | some m =>
        if jsTruthy m then [ServerAct.respond 200 v]
        else
          [ServerAct.respond 500
            (Json.jobj [("error", Json.jstr "Invalid create-map output: No map ID returned")])]
    | none =>
        [ServerAct.respond 500
          (Json.jobj [("error", Json.jstr "Invalid create-map output: No map ID returned")])]
  | none =>
      [ServerAct.respond 500
        (Json.jobj [("error", Json.jstr "Invalid create-map output: ")])]

/-- Translation of the creation endpoint's `close` handler (server.js lines
355-375): the expiry check reads only the stderr-derived message; zero exit
selects the last brace-shaped stdout line, defaulting to the empty-object
literal. -/
def createOnClose (code : Int) (stdout stderr : String) : List ServerAct :=
  if code ≠ 0 then
    let msg := createFailMsg stderr
    (if isSessionExpiredError msg then [ServerAct.launchAuth] else []) ++
      [ServerAct.respond 500 (Json.jobj [("error", Json.jstr msg)])]
  else
    let line := match selectLastLine objShape stdout with
      | some l => l
      | none => "\x7b\x7d"
    createZeroReply line

/-- The non-zero-exit message of the import endpoint: `stderr || 'Import
failed'` (no trim). -/
def importFailMsg (stderr : String) : String :=
  if stderr = "" then "Import failed" else stderr

/-- Translation of the import endpoint's `close` handler (server.js lines
396-406): stdout is not captured at all; zero exit responds `{ ok: true }`. -/
def importOnClose (code : Int) (stderr : String) : List ServerAct :=
  if code ≠ 0 then
    (if isSessionExpiredError (importFailMsg stderr) then [ServerAct.launchAuth] else []) ++
      [ServerAct.respond 500 (Json.jobj [("error", Json.jstr (importFailMsg stderr))])]
  else [ServerAct.respond 200 (Json.jobj [("ok", Json.jbool true)])]

/-- The listing endpoint's registered timeout handler: kill the child, then
respond with the timeout error. -/
def listOnTimeout : List ServerAct :=
  [ServerAct.killChild,
    ServerAct.respond 500
      (Json.jobj [("error", Json.jstr "Timed out waiting for maps list. Try again."),
        ("maps", Json.jarr [])])]

/-- The creation endpoint registers no timeout handler: no server action. -/
def createOnTimeout : List ServerAct := []

/-- The import endpoint registers no timeout handler: no server action. -/
def importOnTimeout : List ServerAct := []

/-- Wall-clock timeout of the listing endpoint (milliseconds). -/
def listTimeoutMs : Nat := 90000

/-- Wall-clock timeout of the creation endpoint (milliseconds). -/
def createTimeoutMs : Nat := 90000

/-- Default `MYMAPS_IMPORT_TIMEOUT_MS` of the import endpoint. -/
def importTimeoutMsDefault : Nat := 300000

/-- Full reaction of the listing endpoint to a subprocess event. -/
def listEndpointReact : ProcEvent → List ServerAct
  | ProcEvent.closed c out err => listOnClose c out err
  | ProcEvent.timedOut => listOnTimeout

/-- Full reaction of the creation endpoint to a subprocess event. -/
def createEndpointReact : ProcEvent → List ServerAct
  | ProcEvent.closed c out err => createOnClose c out err
  | ProcEvent.timedOut => createOnTimeout

/-- Full reaction of the import endpoint to a subprocess event. -/
def importEndpointReact : ProcEvent → List ServerAct
  | ProcEvent.closed c _ err => importOnClose c err
  | ProcEvent.timedOut => importOnTimeout

/-!
## Import endpoint request validation (server.js lines 381-393)
-/

/-- Request-phase action of the import endpoint: either an immediate 400
rejection, or spawning the import subprocess with its arguments. -/
inductive ImportReqAct where
  | reject400 (msg : String)
  | spawnImport (mid kmlPath : String) (layerArg : Json)
deriving Repr

/-- The export file name (directory prefix elided; the path is
`path.join(__dirname, 'address-plotter-export.kml')`). -/
def exportKmlName : String := "address-plotter-export.kml"

/-- `req.body || {}`. -/
def bodyOrEmpty (body : Option Json) : Json :=
  match body with
  | some v => v
  | none => Json.jobj []

/-- The `mid` property of the request body. -/
def midOfBody (body : Option Json) : Option Json :=
  jsProp (bodyOrEmpty body) "mid"

/-- The third subprocess argument: `layerName || ''`. -/
def layerArgOf (v : Option Json) : Json :=
  match v with
  | some j => if jsTruthy j then j else Json.jstr ""
  | none => Json.jstr ""

/-- Translation of the request phase of `POST /api/mymaps-import`:
`!mid || typeof mid !== 'string'` rejects with 400; a missing export KML file
rejects with 400; otherwise the subprocess is spawned with the map id, the
export path and the layer-name argument. -/
def importReqPhase (body : Option Json) (kmlExists : Bool) : ImportReqAct :=
  match midOfBody body with
  | some (Json.jstr s) =>
      if s = "" then ImportReqAct.reject400 "Missing map id (mid)"
      else if kmlExists then
        ImportReqAct.spawnImport s exportKmlName (layerArgOf (jsProp (bodyOrEmpty body) "layerName"))
      else ImportReqAct.reject400 "KML not saved. Click \"Add to Google My Maps\" first."
  | _ => ImportReqAct.reject400 "Missing map id (mid)"

/-- Claim C10: the import endpoint validates before spawning — a missing or
non-string map identifier yields a 400 rejection (so no subprocess), a
missing export KML file yields a 400 rejection (so no subprocess), and a
spawn happens only when the identifier is a (truthy) string and the file
exists. -/
theorem import_request_validation :
    (∀ kmlExists, importReqPhase none kmlExists =
      ImportReqAct.reject400 "Missing map id (mid)") ∧
    (∀ body kmlExists, (∀ s, midOfBody body ≠ some (Json.jstr s)) →
      importReqPhase body kmlExists = ImportReqAct.reject400 "Missing map id (mid)") ∧
    (∀ body s, midOfBody body = some (Json.jstr s) → s ≠ "" →
      importReqPhase body false =
        ImportReqAct.reject400 "KML not saved. Click \"Add to Google My Maps\" first.") ∧
    (∀ body kmlExists m k layer,
      importReqPhase body kmlExists = ImportReqAct.spawnImport m k layer →
      midOfBody body = some (Json.jstr m) ∧ m ≠ "" ∧ kmlExists = true ∧ k = exportKmlName) := by
  refine ⟨fun kmlExists => rfl, ?_, ?_, ?_⟩
  · intro body kmlExists hnotstr
    unfold importReqPhase
    cases hm : midOfBody body with
    | none => rfl
    | some v =>
      cases v with
      | jstr s => exact absurd hm (hnotstr s)
      | jnull => rfl
      | jbool b => rfl
      | jnum m e => rfl
      | jarr xs => rfl
      | jobj fs => rfl
  · intro body s hm hs
    unfold importReqPhase
    rw [hm]
    simp [hs]
  · intro body kmlExists m k layer hspawn
    unfold importReqPhase at hspawn
    cases hm : midOfBody body with
    | none => rw [hm] at hspawn; exact absurd hspawn (by simp)
    | some v =>
      cases v with
      | jstr s =>
          rw [hm] at hspawn
          by_cases hse : s = ""
          · simp [hse] at hspawn
          · simp only [hse, if_false] at hspawn
            cases hke : kmlExists with
            | false => rw [hke] at hspawn; simp at hspawn
            | true =>
                rw [hke] at hspawn
                simp only [if_true] at hspawn
                injection hspawn with h1 h2 h3
                subst h1
                exact ⟨rfl, hse, rfl, h2.symm⟩
      | jnull => rw [hm] at hspawn; exact absurd hspawn (by simp)
      | jbool b => rw [hm] at hspawn; exact absurd hspawn (by simp)
      | jnum mm e => rw [hm] at hspawn; exact absurd hspawn (by simp)
      | jarr xs => rw [hm] at hspawn; exact absurd hspawn (by simp)
      | jobj fs => rw [hm] at hspawn; exact absurd hspawn (by simp)

/-- Witness for `import_request_validation`: a well-formed body spawns; a
numeric id, a missing body, and a missing KML file are each rejected. -/
theorem import_request_validation_witness :
    importReqPhase none true = ImportReqAct.reject400 "Missing map id (mid)" ∧
    importReqPhase (some (Json.jobj [("mid", Json.jnum 5 0)])) true =
      ImportReqAct.reject400 "Missing map id (mid)" ∧
    importReqPhase (some (Json.jobj [("mid", Json.jstr "abc123")])) false =
      ImportReqAct.reject400 "KML not saved. Click \"Add to Google My Maps\" first." ∧
    (importReqPhase (some (Json.jobj [("mid", Json.jstr "abc123")])) true =
        ImportReqAct.spawnImport "abc123" exportKmlName (Json.jstr "") →
      midOfBody (some (Json.jobj [("mid", Json.jstr "abc123")])) =
        some (Json.jstr "abc123") ∧ "abc123" ≠ "" ∧ true = true ∧
        exportKmlName = exportKmlName) := by
  have h := import_request_validation
  refine ⟨h.1 true, ?_, ?_, ?_⟩
  · exact h.2.1 (some (Json.jobj [("mid", Json.jnum 5 0)])) true
      (by intro s hcontra; simp [midOfBody, bodyOrEmpty, jsProp, getFieldLast] at hcontra)
  · exact h.2.2.1 (some (Json.jobj [("mid", Json.jstr "abc123")])) "abc123" rfl (by decide)
  · exact fun hsp => h.2.2.2 (some (Json.jobj [("mid", Json.jstr "abc123")])) true
      "abc123" exportKmlName (Json.jstr "") hsp

/-!
## Claims C6 and C8: timeout handling and auth-recovery triggering
-/

/-- Claim C6 counterexample: the import endpoint (and likewise the creation
endpoint) performs **no** server action when its wall-clock timeout fires —
in particular it neither kills the subprocess nor responds with a timeout
error, contradicting the claim that every workflow subprocess is killed with
a timeout error reported. -/
theorem import_timeout_unhandled :
    importEndpointReact ProcEvent.timedOut = [] ∧
    createEndpointReact ProcEvent.timedOut = [] := by
  exact ⟨rfl, rfl⟩

/-- Claim C6 (amended): only the listing endpoint enforces its 90-second
timeout by killing the subprocess and responding with a timeout error; the
creation endpoint (90 s) and the import endpoint (`MYMAPS_IMPORT_TIMEOUT_MS`,
default 300 s) register no timeout handler, so the server code performs no
action when their timeouts fire. -/
theorem timeout_reaction_amended :
    listEndpointReact ProcEvent.timedOut =
      [ServerAct.killChild,
        ServerAct.respond 500
          (Json.jobj [("error", Json.jstr "Timed out waiting for maps list. Try again."),
            ("maps", Json.jarr [])])] ∧
    createEndpointReact ProcEvent.timedOut = [] ∧
    importEndpointReact ProcEvent.timedOut = [] ∧
    listTimeoutMs = 90000 ∧ createTimeoutMs = 90000 ∧ importTimeoutMsDefault = 300000 := by
  exact ⟨rfl, rfl, rfl, rfl, rfl, rfl⟩

/-- Claim C8 counterexample: on a non-zero exit whose diagnostic (stderr)
text contains no authentication-expiry phrase, the listing endpoint still
launches the authentication browser when the phrase appears in the captured
standard output — contradicting "a non-zero exit without such a phrase
surfaces the error without launching the authentication browser". -/
theorem list_auth_trigger_from_stdout :
    listEndpointReact
        (ProcEvent.closed 1 "Google session expired - please log in" "element not found") =
      [ServerAct.launchAuth,
        ServerAct.respond 500
          (Json.jobj [("error", Json.jstr ("element not found" ++ listHint)),
            ("maps", Json.jarr [])])] ∧
    isSessionExpiredError (listFailMsg "element not found") = false := by
  constructor
  · rfl
  · rfl

/-- Claim C8 (amended): on a non-zero exit, the creation and import endpoints
launch the authentication browser exactly when the stderr-derived message
contains an expiry phrase; the listing endpoint launches it exactly when the
phrase appears in the stderr-derived message **or** in the captured standard
output; in every non-zero case the error is surfaced as a 500 response, and a
zero exit never launches the authentication browser. -/
theorem auth_recovery_trigger_amended :
    (∀ c out err, c ≠ 0 →
      listEndpointReact (ProcEvent.closed c out err) =
        (if isSessionExpiredError (listFailMsg err) || isSessionExpiredError out
          then [ServerAct.launchAuth] else []) ++
          [ServerAct.respond 500
            (Json.jobj [("error", Json.jstr (listFailMsg err ++ listHint)),
              ("maps", Json.jarr [])])]) ∧
    (∀ c out err, c ≠ 0 →
      createEndpointReact (ProcEvent.closed c out err) =
        (if isSessionExpiredError (createFailMsg err)
          then [ServerAct.launchAuth] else []) ++
          [ServerAct.respond 500 (Json.jobj [("error", Json.jstr (createFailMsg err))])]) ∧
    (∀ c out err, c ≠ 0 →
      importEndpointReact (ProcEvent.closed c out err) =
        (if isSessionExpiredError (importFailMsg err)
          then [ServerAct.launchAuth] else []) ++
          [ServerAct.respond 500 (Json.jobj [("error", Json.jstr (importFailMsg err))])]) ∧
    (∀ out err,
      ServerAct.launchAuth ∉ listEndpointReact (ProcEvent.closed 0 out err) ∧
      ServerAct.launchAuth ∉ createEndpointReact (ProcEvent.closed 0 out err) ∧
      ServerAct.launchAuth ∉ importEndpointReact (ProcEvent.closed 0 out err)) := by
  refine ⟨?_, ?_, ?_, ?_⟩
  · intro c out err hc
    simp [listEndpointReact, listOnClose, hc]
  · intro c out err hc
    simp [createEndpointReact, createOnClose, hc]
  · intro c out err hc
    simp [importEndpointReact, importOnClose, hc]
  · intro out err
    refine ⟨?_, ?_, ?_⟩
    · simp only [listEndpointReact, listOnClose, if_neg (by simp : ¬ (0 : Int) ≠ 0)]
      unfold listZeroReply
      cases hsel : selectLastLine listShape out with
      | none =>
          cases hp : parseJson "[]" with
          | none => simp [hp]
          | some v => cases v <;> simp [hp]
      | some l =>
          cases hp : parseJson l with
          | none => simp [hp]
          | some v => cases v <;> simp [hp]
    · simp only [createEndpointReact, createOnClose, if_neg (by simp : ¬ (0 : Int) ≠ 0)]
      unfold createZeroReply
      cases hsel : selectLastLine objShape out with
      | none =>
          cases hp : parseJson "\x7b\x7d" with
          | none => simp [hp]
          | some v =>
              cases hm : jsProp v "mid" with
              | none => simp [hp, hm]
              | some m => by_cases ht : jsTruthy m <;> simp [hp, hm, ht]
      | some l =>
          cases hp : parseJson l with
          | none => simp [hp]
          | some v =>
              cases hm : jsProp v "mid" with
              | none => simp [hp, hm]
              | some m => by_cases ht : jsTruthy m <;> simp [hp, hm, ht]
    · simp [importEndpointReact, importOnClose]

/-- Witness for `auth_recovery_trigger_amended`: concrete non-zero exits with
the phrase in stderr (all three endpoints), and a zero exit for the
no-launch conjunct. -/
theorem auth_recovery_trigger_amended_witness :
    listEndpointReact (ProcEvent.closed 1 "out" "Google session expired") =
      (if isSessionExpiredError (listFailMsg "Google session expired") ||
          isSessionExpiredError "out"
        then [ServerAct.launchAuth] else []) ++
        [ServerAct.respond 500
          (Json.jobj [("error", Json.jstr (listFailMsg "Google session expired" ++ listHint)),
            ("maps", Json.jarr [])])] ∧
    createEndpointReact (ProcEvent.closed 1 "out" "verify it to continue") =
      (if isSessionExpiredError (createFailMsg "verify it to continue")
        then [ServerAct.launchAuth] else []) ++
        [ServerAct.respond 500
          (Json.jobj [("error", Json.jstr (createFailMsg "verify it to continue"))])] ∧
    importEndpointReact (ProcEvent.closed 1 "out" "please re-authenticate") =
      (if isSessionExpiredError (importFailMsg "please re-authenticate")
        then [ServerAct.launchAuth] else []) ++
        [ServerAct.respond 500
          (Json.jobj [("error", Json.jstr (importFailMsg "please re-authenticate"))])] ∧
    ServerAct.launchAuth ∉ listEndpointReact (ProcEvent.closed 0 "[]" "") := by
  have h := auth_recovery_trigger_amended
  exact ⟨h.1 1 "out" "Google session expired" (by decide),
    h.2.1 1 "out" "verify it to continue" (by decide),
    h.2.2.1 1 "out" "please re-authenticate" (by decide),
    (h.2.2.2 "[]" "").1⟩

/-!
## Claim C4: result-line extraction
-/

/-- The last element of a list satisfying `p` is `l` when `l` satisfies `p`
and everything after it does not. -/
theorem filter_getLast_eq (p : String → Bool) (pre post : List String) (l : String)
    (hl : p l = true) (hpost : ∀ x ∈ post, p x = false) :
    ((pre ++ l :: post).filter p).getLast? = some l := by
  have hpost2 : post.filter p = [] := by
    rw [List.filter_eq_nil_iff]
    intro a ha
    simp [hpost a ha]
  rw [List.filter_append, List.filter_cons, hpost2]
  simp only [hl, if_true]
  exact List.getLast?_concat _

/-- Claim C4 counterexample: with a zero exit code and a standard output
containing no line of the expected array shape, the listing endpoint responds
with a **success** and an empty map list (the selection falls back to the
empty-array literal), not with a malformed-result error as the claim
requires. -/
theorem list_absent_result_line_success :
    listEndpointReact (ProcEvent.closed 0 "spawning browser\nno maps found today" "") =
      [ServerAct.respond 200 (Json.jobj [("maps", Json.jarr [])])] ∧
    (jsSplitNl (jsTrim "spawning browser\nno maps found today")).filter listShape = [] := by
  exact ⟨rfl, rfl⟩

/-- Claim C4 (amended): on zero exit both orchestrator handlers select the
last stdout line whose trimmed text matches the expected shape and the
response is a function of that line alone (all other lines are ignored); a
selected line that fails to parse — and, for creation, one without a truthy
map identifier — is reported as an error; but when **no** matching line
exists the listing endpoint substitutes the empty-array literal and responds
with a success carrying an empty list, while the creation endpoint substitutes
the empty-object literal and reports the missing-identifier error. -/
theorem result_line_extraction_amended :
    (∀ out err pre post l, listShape l = true → (∀ x ∈ post, listShape x = false) →
      jsSplitNl (jsTrim out) = pre ++ l :: post →
      listEndpointReact (ProcEvent.closed 0 out err) = listZeroReply l) ∧
    (∀ out err, (jsSplitNl (jsTrim out)).filter listShape = [] →
      listEndpointReact (ProcEvent.closed 0 out err) =
        [ServerAct.respond 200 (Json.jobj [("maps", Json.jarr [])])]) ∧
    (∀ out err pre post l, objShape l = true → (∀ x ∈ post, objShape x = false) →
      jsSplitNl (jsTrim out) = pre ++ l :: post →
      createEndpointReact (ProcEvent.closed 0 out err) = createZeroReply l) ∧
    (∀ out err, (jsSplitNl (jsTrim out)).filter objShape = [] →
      createEndpointReact (ProcEvent.closed 0 out err) =
        [ServerAct.respond 500
          (Json.jobj [("error", Json.jstr "Invalid create-map output: No map ID returned")])]) ∧
    (∀ l xs, parseJson l = some (Json.jarr xs) →
      listZeroReply l = [ServerAct.respond 200 (Json.jobj [("maps", Json.jarr xs)])]) ∧
    (∀ l, parseJson l = none →
      listZeroReply l =
        [ServerAct.respond 500
          (Json.jobj [("error", Json.jstr "Invalid map list output"), ("maps", Json.jarr [])])]) ∧
    (∀ l v m, parseJson l = some v → jsProp v "mid" = some m → jsTruthy m = true →
      createZeroReply l = [ServerAct.respond 200 v]) := by
  refine ⟨?_, ?_, ?_, ?_, ?_, ?_, ?_⟩
  · intro out err pre post l hl hpost hsplit
    have hsel : selectLastLine listShape out = some l := by
      unfold selectLastLine
      rw [hsplit]
      exact filter_getLast_eq listShape pre post l hl hpost
    simp only [listEndpointReact, listOnClose, if_neg (by simp : ¬ (0 : Int) ≠ 0), hsel]
  · intro out err hfilter
    have hsel : selectLastLine listShape out = none := by
      unfold selectLastLine
      rw [hfilter]
      rfl
    simp only [listEndpointReact, listOnClose, if_neg (by simp : ¬ (0 : Int) ≠ 0), hsel]
    rfl
  · intro out err pre post l hl hpost hsplit
    have hsel : selectLastLine objShape out = some l := by
      unfold selectLastLine
      rw [hsplit]
      exact filter_getLast_eq objShape pre post l hl hpost
    simp only [createEndpointReact, createOnClose, if_neg (by simp : ¬ (0 : Int) ≠ 0), hsel]
  · intro out err hfilter
    have hsel : selectLastLine objShape out = none := by
      unfold selectLastLine
      rw [hfilter]
      rfl
    simp only [createEndpointReact, createOnClose, if_neg (by simp : ¬ (0 : Int) ≠ 0), hsel]
    rfl
  · intro l xs hp
    unfold listZeroReply
    rw [hp]
  · intro l hp
    unfold listZeroReply
    rw [hp]
  · intro l v m hp hm ht
    unfold createZeroReply
    rw [hp]
    simp [hm, ht]

/-- Witness for `result_line_extraction_amended`: a concrete interleaving of
diagnostic noise around one well-formed result line for each endpoint, a
no-matching-line capture for each endpoint, and the parse-dispatch facts at
concrete lines. -/
theorem result_line_extraction_amended_witness :
    (listEndpointReact (ProcEvent.closed 0 "log line\n[\"m1\"]\ntrailing note" "") =
      listZeroReply "[\"m1\"]") ∧
    (listEndpointReact (ProcEvent.closed 0 "plain noise only" "") =
      [ServerAct.respond 200 (Json.jobj [("maps", Json.jarr [])])]) ∧
    (createEndpointReact
        (ProcEvent.closed 0 "note\n\x7b\"mid\":\"m1\",\"title\":\"T\"\x7d" "") =
      createZeroReply "\x7b\"mid\":\"m1\",\"title\":\"T\"\x7d") ∧
    (createEndpointReact (ProcEvent.closed 0 "plain noise only" "") =
      [ServerAct.respond 500
        (Json.jobj [("error", Json.jstr "Invalid create-map output: No map ID returned")])]) ∧
    (listZeroReply "[\"m1\"]" =
      [ServerAct.respond 200 (Json.jobj [("maps", Json.jarr [Json.jstr "m1"])])]) ∧
    (listZeroReply "[oops" =
      [ServerAct.respond 500
        (Json.jobj [("error", Json.jstr "Invalid map list output"), ("maps", Json.jarr [])])]) ∧
    (createZeroReply "\x7b\"mid\":\"m1\",\"title\":\"T\"\x7d" =
      [ServerAct.respond 200
        (Json.jobj [("mid", Json.jstr "m1"), ("title", Json.jstr "T")])]) := by
  have h := result_line_extraction_amended
  refine ⟨?_, ?_, ?_, ?_, ?_, ?_, ?_⟩
  · exact h.1 "log line\n[\"m1\"]\ntrailing note" "" ["log line"] ["trailing note"]
      "[\"m1\"]" (by decide) (by decide) (by decide)
  · exact h.2.1 "plain noise only" "" (by decide)
  · exact h.2.2.1 "note\n\x7b\"mid\":\"m1\",\"title\":\"T\"\x7d" "" ["note"] []
      "\x7b\"mid\":\"m1\",\"title\":\"T\"\x7d" (by decide) (by decide) (by decide)
  · exact h.2.2.2.1 "plain noise only" "" (by decide)
  · exact h.2.2.2.2.1 "[\"m1\"]" [Json.jstr "m1"] rfl
  · exact h.2.2.2.2.2.1 "[oops" rfl
  · exact h.2.2.2.2.2.2 "\x7b\"mid\":\"m1\",\"title\":\"T\"\x7d"
      (Json.jobj [("mid", Json.jstr "m1"), ("title", Json.jstr "T")])
      (Json.jstr "m1") rfl rfl rfl

/-!
## Workflow bodies

The three workflow scripts are modelled at step granularity.  Page
interactions whose outcomes branch the control flow are abstracted as
environment fields (translated from the `try`/`catch` and boolean-flag
structure of the source); the steps actually reached are recorded in order.
Unconditional waits and informational progress logs are elided.
-/

/-- Workflow steps (shared alphabet of the three workflows). -/
inductive WStep where
  | navigate
  | dismissDialogs
  | authProbe
  | waitUi
  | addLayer
  | clickImport
  | waitDialog
  | setFile
  | confirmUpload
  | settle
  | clickCreate
  | confirmCreateDialog
  | waitEditorUrl
  | extractMid
  | renameMap
  | shareMap
  | pollNetwork
  | evalHook
  | scrapeFrames
  | scrapeHtml
  | emitResult
deriving Repr, DecidableEq

/-- The session-expiry error message thrown by the workflows. -/
def sessionExpiredMsg : String :=
  "Google session expired - sign in required. The app will help you re-authenticate."

/-- First match of the pattern `[?&]mid=([^&]+)` over the characters of a
URL: at each position, a `?` or `&` followed by `mid=` and at least one
non-`&` character yields the maximal such run; otherwise the scan advances. -/
def midOfUrlAux : List Char → Option String
  | [] => none
  | c :: rest =>
    if c = '?' ∨ c = '&' then
      if leadsWith ['m', 'i', 'd', '='] rest then
        let cap := (rest.drop 4).takeWhile (fun d => d ≠ '&')
        if cap.isEmpty then midOfUrlAux rest else some (String.mk cap)
      else midOfUrlAux rest
    else midOfUrlAux rest

/-- `url.match(/[?&]mid=([^&]+)/)`, returning the captured group. -/
def midOfUrl (url : String) : Option String :=
  midOfUrlAux url.data

/-- `JSON.stringify({ mid, title })` for the CreateResource result record. -/
def stringifyMapResult (mid title : String) : String :=
  "\x7b\"mid\":" ++ quoteJson mid ++ ",\"title\":" ++ quoteJson title ++ "\x7d"

/-- `process.argv[2] || 'Untitled map'`. -/
def mapNameOf (argv2 : Option String) : String :=
  match argv2 with
  | none => "Untitled map"
  | some s => if s = "" then "Untitled map" else s

/-!
### CreateResource (create-mymap.mjs, main)
-/

/-- Abstracted page environment for one CreateResource run: the probe result,
the outcomes of the fatal steps, the post-creation URL, and the outcomes of
the two best-effort sub-steps with the messages of their caught errors. -/
structure CreateEnv where
  authOk : Bool
  createClickOk : Bool
  createClickErr : String
  editorLoaded : Bool
  editorLoadErr : String
  editorUrl : String
  renameOk : Bool
  renameErr : String
  shareOk : Bool
  shareErr : String
deriving Repr, DecidableEq

/-- Observable result of a CreateResource run: the propagated error (if any),
the standard-output lines, the failure diagnostics, and the steps reached. -/
structure CreateRun where
  exitc : Except String Unit
  stdoutLines : List String
  stderrLogs : List String
  steps : List WStep
deriving Repr

/-- Translation of create-mymap.mjs `main`: navigate, probe the session
(aborting with the session-expired error when it fails), click creation,
acknowledge the confirmation dialog, wait for the editor URL, extract the map
id from it (fatal on failure), then best-effort rename (only for a
non-default name) and best-effort share (failures logged, not fatal), and
finally write the single JSON result line with the requested title. -/
def createMain (name : String) (env : CreateEnv) : CreateRun :=
  if env.authOk = false then
    { exitc := Except.error sessionExpiredMsg, stdoutLines := [], stderrLogs := [],
      steps := [WStep.navigate, WStep.authProbe] }
  else if env.createClickOk = false then
    { exitc := Except.error env.createClickErr, stdoutLines := [], stderrLogs := [],
      steps := [WStep.navigate, WStep.authProbe, WStep.clickCreate] }
  else if env.editorLoaded = false then
    { exitc := Except.error env.editorLoadErr, stdoutLines := [], stderrLogs := [],
      steps := [WStep.navigate, WStep.authProbe, WStep.clickCreate,
        WStep.confirmCreateDialog, WStep.waitEditorUrl] }
  else
    match midOfUrl env.editorUrl with
    | none =>
      { exitc := Except.error ("Could not find map ID in URL: " ++ env.editorUrl),
        stdoutLines := [], stderrLogs := [],
        steps := [WStep.navigate, WStep.authProbe, WStep.clickCreate,
          WStep.confirmCreateDialog, WStep.waitEditorUrl, WStep.extractMid] }
    | some mid =>
      let doRename := name ≠ "" ∧ name ≠ "Untitled map"
      let renameLogs :=
        if doRename ∧ env.renameOk = false
          then ["[create-mymap] Could not rename map: " ++ env.renameErr] else []
      let renameSteps := if doRename then [WStep.renameMap] else []
      let shareLogs :=
        if env.shareOk = false
          then ["[create-mymap] Could not auto-share map: " ++ env.shareErr] else []
      { exitc := Except.ok (),
        stdoutLines := [stringifyMapResult mid name],
        stderrLogs := renameLogs ++ shareLogs,
        steps := [WStep.navigate, WStep.authProbe, WStep.clickCreate,
            WStep.confirmCreateDialog, WStep.waitEditorUrl, WStep.extractMid] ++
          renameSteps ++ [WStep.shareMap, WStep.emitResult] }

/-!
### One ImportLayer attempt (import-to-mymaps.mjs, doImport)
-/

/-- Outcome of the `waitForMapsUI` polling loop: UI ready, timed out, or the
session found expired while polling. -/
inductive UiWait where
  | ready
  | notReady
  | sessionLost
deriving Repr, DecidableEq

/-- Abstracted page environment for one `doImport` attempt. -/
structure ImportEnv where
  authOk : Bool
  uiWait : UiWait
  addLayerOk : Bool
  importClickOk : Bool
  fileSetOk : Bool
  fileChooserOk : Bool
  chooserErr : String
  settleShowsError : Bool
deriving Repr, DecidableEq

/-- Translation of `doImport` (import-to-mymaps.mjs lines 224-467): navigate
to the edit URL, dismiss browser dialogs twice, probe the session (aborting
with the session-expired error), wait for the UI, add a layer, open the
dialog for importing, set the file directly or through the file-chooser fallback,
confirm, and poll the settle condition (which throws when Google shows an
error message). -/
def doImportModel (env : ImportEnv) : Except String Unit × List WStep :=
  let pre := [WStep.navigate, WStep.dismissDialogs, WStep.dismissDialogs]
  if env.authOk = false then
    (Except.error sessionExpiredMsg, pre ++ [WStep.authProbe])
  else
    match env.uiWait with
    | UiWait.sessionLost =>
        (Except.error sessionExpiredMsg, pre ++ [WStep.authProbe, WStep.waitUi])
    | UiWait.notReady =>
        (Except.error "My Maps UI did not load - \"Add layer\" button not found",
          pre ++ [WStep.authProbe, WStep.waitUi])
    | UiWait.ready =>
      let base := pre ++ [WStep.authProbe, WStep.waitUi]
      if env.addLayerOk = false then
        (Except.error
            "Could not click Add layer button - it may be scrolled out of view or the UI has changed",
          base ++ [WStep.addLayer])
      else if env.importClickOk = false then
        (Except.error "Could not click Import button",
          base ++ [WStep.addLayer, WStep.clickImport])
      else if env.fileSetOk = false ∧ env.fileChooserOk = false then
        (Except.error ("Could not set file for import: " ++ env.chooserErr),
          base ++ [WStep.addLayer, WStep.clickImport, WStep.waitDialog, WStep.setFile])
      else if env.settleShowsError then
        (Except.error "Import failed - Google showed an error message",
          base ++ [WStep.addLayer, WStep.clickImport, WStep.waitDialog, WStep.setFile,
            WStep.confirmUpload, WStep.settle])
      else
        (Except.ok (),
          base ++ [WStep.addLayer, WStep.clickImport, WStep.waitDialog, WStep.setFile,
            WStep.confirmUpload, WStep.settle])

/-!
### ListResources (the list-mymaps script)

The network response listener and the in-page hook both funnel candidate
`(mid, title)` pairs through `addMap`, which de-duplicates by the canonical
mid key (with a special case routing very long comma-separated strings
through the CSV-row parser).  We take each source's raw candidate sequence
as input and replay the main control flow.

The control flow past the first in-page hook harvest is unreachable: the
second navigation reads the identifier `navTimeout`, which is never declared
in this script, so reaching that statement throws a `ReferenceError` that
rejects `main()` (the rejection happens while evaluating the call's argument,
before the navigation promise — and its attached catch — exists).  The
script's top-level handler then writes `[]` to standard output and exits
with code 1.  The second hook harvest, the DOM/iframe scrapes and the
raw-HTML scan below that line are therefore dead code; their in-page
de-duplication helpers are still translated in this section as standalone
definitions, but `listMain` models the crash instead of running them.
-/

/-- One listed map entry `{ mid, title, href }`. -/
structure MapEntry where
  mid : String
  title : String
  href : String
deriving Repr, DecidableEq

/-- Upper-case hexadecimal digit. -/
def hexDigitUpper (n : Nat) : Char :=
  if n < 10 then Char.ofNat (48 + n) else Char.ofNat (55 + n)

/-- UTF-8 bytes of a character. -/
def utf8Bytes (c : Char) : List Nat :=
  let n := c.toNat
  if n < 128 then [n]
  else if n < 2048 then [192 + n / 64, 128 + n % 64]
  else if n < 65536 then [224 + n / 4096, 128 + (n / 64) % 64, 128 + n % 64]
  else [240 + n / 262144, 128 + (n / 4096) % 64, 128 + (n / 64) % 64, 128 + n % 64]

/-- Characters kept verbatim by `encodeURIComponent`. -/
def uriUnreserved (c : Char) : Bool :=
  c.isAlpha || c.isDigit || c = '-' || c = '_' || c = '.' || c = '!' ||
  c = '~' || c = '*' || c = Char.ofNat 39 || c = '(' || c = ')'

/-- Percent-encoding of one byte. -/
def pctByte (b : Nat) : List Char :=
  ['%', hexDigitUpper (b / 16), hexDigitUpper (b % 16)]

/-- `encodeURIComponent`. -/
def encodeURIComponent (s : String) : String :=
  String.mk (s.data.flatMap fun c =>
    if uriUnreserved c then [c] else (utf8Bytes c).flatMap pctByte)

/-- The edit href built by `addMap`. -/
def mapsHref (s : String) : String :=
  "https://www.google.com/maps/d/edit?mid=" ++ encodeURIComponent s

/-- The accumulator of the network source: the seen-mid set and the entry
list, in insertion order. -/
structure NetState where
  seen : List String
  maps : List MapEntry
deriving Repr, DecidableEq

/-- Split a character list at commas (JavaScript `s.split(',')`). -/
def splitComma : List Char → List (List Char)
  | [] => [[]]
  | c :: rest =>
    let r := splitComma rest
    if c = ',' then [] :: r
    else
      match r with
      | g :: gs => (c :: g) :: gs
      | [] => [[c]]

/-- JavaScript `s.split(',')`. -/
def jsSplitComma (s : String) : List String :=
  (splitComma s.data).map String.mk

/-- Adjacent pairs `(parts[i], parts[i+1])` for `i < parts.length - 1`. -/
def adjPairs : List String → List (String × String)
  | a :: b :: rest => (a, b) :: adjPairs (b :: rest)
  | _ => []

/-- Character class `[a-zA-Z0-9_-]`. -/
def isIdChar (c : Char) : Bool :=
  c.isAlpha || c.isDigit || c = '_' || c = '-'

/-- Test of `/^[a-zA-Z0-9_-]{20,45}$/`. -/
def csvIdOk (s : String) : Bool :=
  s.data.all isIdChar && decide (20 ≤ s.length) && decide (s.length ≤ 45)

/-- Test of `/^\d+$/`. -/
def allDigits (s : String) : Bool :=
  decide (s ≠ "") && s.data.all Char.isDigit

/-- The CSV-row title filter: truthy, not all digits, not a URL, shorter
than 200 characters. -/
def csvTitleOk (t : String) : Bool :=
  decide (t ≠ "") && !(allDigits t) &&
  !(strBegins t "http://" || strBegins t "https://") && decide (t.length < 200)

/-- One iteration of `parseMaplistCsvRow`'s loop over adjacent parts. -/
def csvRowStep (st : NetState) (pair : String × String) : NetState :=
  let id := jsTrim pair.1
  let title := jsTrim pair.2
  if csvIdOk id && csvTitleOk title then
    if id ∈ st.seen then st
    else
      { seen := id :: st.seen,
        maps := st.maps ++ [{ mid := id, title := title, href := mapsHref id }] }
  else st

/-- Translation of `parseMaplistCsvRow`: reject short or comma-free strings,
then scan adjacent comma-separated parts for id/title pairs. -/
def parseMaplistCsvRow (st : NetState) (str : String) : NetState :=
  if str = "" ∨ str.length < 40 ∨ strHas str "," = false then st
  else (adjPairs (jsSplitComma str)).foldl csvRowStep st

/-- Translation of `addMap`: reject a falsy mid; route very long
comma-containing strings through the CSV-row parser; otherwise de-duplicate
by the trimmed mid and append an entry whose title defaults to the mid. -/
def addMap (st : NetState) (mid : String) (title : Option String) : NetState :=
  if mid = "" then st
  else
    let s := jsTrim mid
    if 80 < s.length ∧ strHas s "," then parseMaplistCsvRow st s
    else if s ∈ st.seen then st
    else
      let t := match title with
        | some t0 => if jsTrim t0 = "" then s else jsTrim t0
        | none => s
      { seen := s :: st.seen,
        maps := st.maps ++ [{ mid := s, title := t, href := mapsHref s }] }

/-- Feed a sequence of `(mid, title)` candidates through `addMap`. -/
def foldAddMap (st : NetState) (evts : List (String × Option String)) : NetState :=
  evts.foldl (fun a e => addMap a e.1 e.2) st

/-- The empty accumulator. -/
def initNetState : NetState := { seen := [], maps := [] }

/-- The in-page seen-set de-duplication performed by the scrape sources
(`frameExtract` and the frame-locator path): entries with a falsy or
already-seen mid are dropped.  (Unreachable in the shipped script: the
undeclared `navTimeout` crashes `main` before any scrape runs.) -/
def dedupEntries (seen : List String) : List MapEntry → List MapEntry
  | [] => []
  | e :: rest =>
    if e.mid = "" then dedupEntries seen rest
    else if e.mid ∈ seen then dedupEntries seen rest
    else e :: dedupEntries (e.mid :: seen) rest

/-- The seen-set de-duplication of the raw-HTML scan's ids. -/
def dedupIds (seen : List String) : List String → List String
  | [] => []
  | i :: rest => if i ∈ seen then dedupIds seen rest else i :: dedupIds (i :: seen) rest

/-- Entries built by the raw-HTML scan: title and href derived from the id
(no percent-encoding in this code path, as in the source). -/
def htmlEntries (ids : List String) : List MapEntry :=
  (dedupIds [] ids).map fun id =>
    { mid := id, title := id, href := "https://www.google.com/maps/d/edit?mid=" ++ id }

/-- The frame scan: the main frame's extract is taken even when empty, then
each further frame's extract is adopted only when the current result is
still empty (mirroring the assignment/break structure of the loop). -/
def scanFrames : List (List MapEntry) → List MapEntry
  | [] => []
  | f :: rest =>
    let d := dedupEntries [] f
    if d.isEmpty then scanFrames rest else d

/-- Raw candidate sequences of the ListResources sources: the network
response listener, the two in-page hook harvests, the per-frame DOM scrapes
(main frame first), the frame-locator scrape and the raw-HTML scan.  Only
`network` and `hook1` are ever consumed: the remaining sources would be read
by the dead code past the undeclared-`navTimeout` crash. -/
structure ListEnv where
  network : List (String × Option String)
  hook1 : List (String × Option String)
  hook2 : List (String × Option String)
  domFrames : List (List MapEntry)
  iframeScrape : List MapEntry
  htmlIds : List String
deriving Repr

/-- Result of a ListResources run: the emitted map list (the `[]` written by
the top-level error handler counts as the empty list), the process exit
code, and the steps reached. -/
structure ListRun where
  maps : List MapEntry
  exitCode : Nat
  steps : List WStep
deriving Repr, DecidableEq

/-- Translation of the list-mymaps `main` (lines 663-798 of the script):
navigate and poll the network source, exiting 0 with its maps as soon as it
is non-empty; otherwise harvest the in-page hook into the same accumulator
and re-check, again exiting 0 when non-empty.  Otherwise the next statement
— the navigation to the alternate host — reads the undeclared identifier
`navTimeout` and throws a `ReferenceError`, so `main` rejects and the
top-level handler writes `[]` and exits 1; the second hook harvest and the
frame/iframe/raw-HTML scrape fallbacks are unreachable.  No authentication
probe appears anywhere in this workflow. -/
def listMain (env : ListEnv) : ListRun :=
  let st1 := foldAddMap initNetState env.network
  if st1.maps.isEmpty = false then
    { maps := st1.maps, exitCode := 0,
      steps := [WStep.navigate, WStep.pollNetwork, WStep.emitResult] }
  else
    let st2 := foldAddMap st1 env.hook1
    if st2.maps.isEmpty = false then
      { maps := st2.maps, exitCode := 0,
        steps := [WStep.navigate, WStep.pollNetwork, WStep.evalHook, WStep.emitResult] }
    else
      -- `ReferenceError: navTimeout is not defined` → stdout `[]`, exit 1
      { maps := [], exitCode := 1,
        steps := [WStep.navigate, WStep.pollNetwork, WStep.evalHook] }

/-!
## Claims C5 and C7: early auth probe and the CreateResource contract
-/

/-- Claim C5 counterexample: the ListResources workflow performs no
authentication probe at all — a run on the live path (the network source
yields a map during the poll) completes and emits its result with exit code
0 and no `authProbe` step anywhere in its trace, contradicting the claim
that every one of the three workflows probes authentication immediately
after navigation and aborts when unauthenticated. -/
theorem list_workflow_skips_auth_probe :
    (listMain
        { network := [("mapid123", some "My Map")], hook1 := [], hook2 := [],
          domFrames := [], iframeScrape := [], htmlIds := [] }).maps =
      [{ mid := "mapid123", title := "My Map",
          href := "https://www.google.com/maps/d/edit?mid=mapid123" }] ∧
    (listMain
        { network := [("mapid123", some "My Map")], hook1 := [], hook2 := [],
          domFrames := [], iframeScrape := [], htmlIds := [] }).exitCode = 0 ∧
    WStep.authProbe ∉
      (listMain
        { network := [("mapid123", some "My Map")], hook1 := [], hook2 := [],
          domFrames := [], iframeScrape := [], htmlIds := [] }).steps ∧
    WStep.emitResult ∈
      (listMain
        { network := [("mapid123", some "My Map")], hook1 := [], hook2 := [],
          domFrames := [], iframeScrape := [], htmlIds := [] }).steps := by
  refine ⟨rfl, rfl, by decide, by decide⟩

/-- Claim C5 (amended): the ImportLayer and CreateResource workflows probe
the authentication state immediately after navigating (ImportLayer after
first dismissing browser dialogs) and, when the probe fails, abort with the
session-expired error without reaching any further step; the ListResources
workflow performs no authentication probe at all. -/
theorem auth_probe_amended :
    (∀ ienv : ImportEnv, ienv.authOk = false →
      doImportModel ienv =
        (Except.error sessionExpiredMsg,
          [WStep.navigate, WStep.dismissDialogs, WStep.dismissDialogs, WStep.authProbe])) ∧
    (∀ name cenv, cenv.authOk = false →
      createMain name cenv =
        { exitc := Except.error sessionExpiredMsg, stdoutLines := [], stderrLogs := [],
          steps := [WStep.navigate, WStep.authProbe] }) ∧
    (∀ lenv : ListEnv, WStep.authProbe ∉ (listMain lenv).steps) := by
  refine ⟨?_, ?_, ?_⟩
  · intro ienv h
    simp [doImportModel, h]
  · intro name cenv h
    simp [createMain, h]
  · intro lenv
    simp only [listMain]
    split_ifs <;> simp

/-- Witness for `auth_probe_amended` at concrete unauthenticated
environments and a concrete list environment. -/
theorem auth_probe_amended_witness :
    doImportModel
        { authOk := false, uiWait := UiWait.ready, addLayerOk := true,
          importClickOk := true, fileSetOk := true, fileChooserOk := true,
          chooserErr := "", settleShowsError := false } =
      (Except.error sessionExpiredMsg,
        [WStep.navigate, WStep.dismissDialogs, WStep.dismissDialogs, WStep.authProbe]) ∧
    createMain "Region West"
        { authOk := false, createClickOk := true, createClickErr := "",
          editorLoaded := true, editorLoadErr := "",
          editorUrl := "https://www.google.com/maps/d/edit?mid=zz", renameOk := true,
          renameErr := "", shareOk := true, shareErr := "" } =
      { exitc := Except.error sessionExpiredMsg, stdoutLines := [], stderrLogs := [],
        steps := [WStep.navigate, WStep.authProbe] } ∧
    WStep.authProbe ∉
      (listMain
        { network := [("m1", some "T")], hook1 := [], hook2 := [], domFrames := [],
          iframeScrape := [], htmlIds := [] }).steps := by
  have h := auth_probe_amended
  refine ⟨?_, ?_, ?_⟩
  · exact h.1
      { authOk := false, uiWait := UiWait.ready, addLayerOk := true,
        importClickOk := true, fileSetOk := true, fileChooserOk := true,
        chooserErr := "", settleShowsError := false } rfl
  · exact h.2.1 "Region West"
      { authOk := false, createClickOk := true, createClickErr := "",
        editorLoaded := true, editorLoadErr := "",
        editorUrl := "https://www.google.com/maps/d/edit?mid=zz", renameOk := true,
        renameErr := "", shareOk := true, shareErr := "" } rfl
  · exact h.2.2
      { network := [("m1", some "T")], hook1 := [], hook2 := [], domFrames := [],
        iframeScrape := [], htmlIds := [] }

/-- Claim C7: in CreateResource, failing to extract the map id from the
post-creation URL (via `[?&]mid=([^&]+)`) fails the whole workflow with no
output; with the id extracted, the workflow succeeds regardless of the
rename and share outcomes, emitting exactly one JSON line `{ mid, title }`
whose title is the requested name (`'Untitled map'` when none was given),
while rename and share failures are only logged to diagnostics. -/
theorem create_resource_contract (a : Option String) (env1 env2 : CreateEnv) (mid : String)
    (h1auth : env1.authOk = true) (h1click : env1.createClickOk = true)
    (h1ed : env1.editorLoaded = true) (h1mid : midOfUrl env1.editorUrl = none)
    (h2auth : env2.authOk = true) (h2click : env2.createClickOk = true)
    (h2ed : env2.editorLoaded = true) (h2mid : midOfUrl env2.editorUrl = some mid) :
    (createMain (mapNameOf a) env1).exitc =
      Except.error ("Could not find map ID in URL: " ++ env1.editorUrl) ∧
    (createMain (mapNameOf a) env1).stdoutLines = [] ∧
    (createMain (mapNameOf a) env2).exitc = Except.ok () ∧
    (createMain (mapNameOf a) env2).stdoutLines =
      [stringifyMapResult mid (mapNameOf a)] ∧
    mapNameOf none = "Untitled map" ∧
    (∀ s, s ≠ "" → mapNameOf (some s) = s) ∧
    (env2.renameOk = false → mapNameOf a ≠ "" → mapNameOf a ≠ "Untitled map" →
      ("[create-mymap] Could not rename map: " ++ env2.renameErr) ∈
        (createMain (mapNameOf a) env2).stderrLogs) ∧
    (env2.shareOk = false →
      ("[create-mymap] Could not auto-share map: " ++ env2.shareErr) ∈
        (createMain (mapNameOf a) env2).stderrLogs) := by
  refine ⟨?_, ?_, ?_, ?_, rfl, ?_, ?_, ?_⟩
  · simp [createMain, h1auth, h1click, h1ed, h1mid]
  · simp [createMain, h1auth, h1click, h1ed, h1mid]
  · simp [createMain, h2auth, h2click, h2ed, h2mid]
  · simp [createMain, h2auth, h2click, h2ed, h2mid]
  · intro s hs
    simp [mapNameOf, hs]
  · intro hrf hne hnd
    simp [createMain, h2auth, h2click, h2ed, h2mid, hrf, hne, hnd]
  · intro hsf
    simp [createMain, h2auth, h2click, h2ed, h2mid, hsf]

/-- Witness for `create_resource_contract`: name `"Region West"`, one run
whose post-creation URL has no `mid` parameter, and one successful run (url
carrying `mid=abc123`) whose rename and share sub-steps both fail. -/
theorem create_resource_contract_witness :
    (createMain (mapNameOf (some "Region West"))
        { authOk := true, createClickOk := true, createClickErr := "",
          editorLoaded := true, editorLoadErr := "",
          editorUrl := "https://www.google.com/maps/d/u/0/", renameOk := true,
          renameErr := "", shareOk := true, shareErr := "" }).exitc =
      Except.error ("Could not find map ID in URL: " ++ "https://www.google.com/maps/d/u/0/") ∧
    (createMain (mapNameOf (some "Region West"))
        { authOk := true, createClickOk := true, createClickErr := "",
          editorLoaded := true, editorLoadErr := "",
          editorUrl := "https://www.google.com/maps/d/edit?mid=abc123&usp=sharing",
          renameOk := false, renameErr := "click timeout", shareOk := false,
          shareErr := "no toggle" }).stdoutLines =
      [stringifyMapResult "abc123" (mapNameOf (some "Region West"))] ∧
    ("[create-mymap] Could not rename map: " ++ "click timeout") ∈
      (createMain (mapNameOf (some "Region West"))
        { authOk := true, createClickOk := true, createClickErr := "",
          editorLoaded := true, editorLoadErr := "",
          editorUrl := "https://www.google.com/maps/d/edit?mid=abc123&usp=sharing",
          renameOk := false, renameErr := "click timeout", shareOk := false,
          shareErr := "no toggle" }).stderrLogs ∧
    ("[create-mymap] Could not auto-share map: " ++ "no toggle") ∈
      (createMain (mapNameOf (some "Region West"))
        { authOk := true, createClickOk := true, createClickErr := "",
          editorLoaded := true, editorLoadErr := "",
          editorUrl := "https://www.google.com/maps/d/edit?mid=abc123&usp=sharing",
          renameOk := false, renameErr := "click timeout", shareOk := false,
          shareErr := "no toggle" }).stderrLogs := by
  have h := create_resource_contract (some "Region West")
    { authOk := true, createClickOk := true, createClickErr := "",
      editorLoaded := true, editorLoadErr := "",
      editorUrl := "https://www.google.com/maps/d/u/0/", renameOk := true,
      renameErr := "", shareOk := true, shareErr := "" }
    { authOk := true, createClickOk := true, createClickErr := "",
      editorLoaded := true, editorLoadErr := "",
      editorUrl := "https://www.google.com/maps/d/edit?mid=abc123&usp=sharing",
      renameOk := false, renameErr := "click timeout", shareOk := false,
      shareErr := "no toggle" }
    "abc123" rfl rfl rfl (by decide) rfl rfl rfl (by decide)
  exact ⟨h.1, h.2.2.2.1,
    h.2.2.2.2.2.2.1 rfl (by decide) (by decide),
    h.2.2.2.2.2.2.2 rfl⟩

/-!
## Claim C9: de-duplication invariant and network preference
-/

/-- Well-formedness of the network accumulator: the entry mids are pairwise
distinct and every entry's mid has been recorded in the seen-set. -/
def NetWF (st : NetState) : Prop :=
  (st.maps.map MapEntry.mid).Nodup ∧ ∀ e ∈ st.maps, e.mid ∈ st.seen

/-- The empty accumulator is well-formed. -/
theorem netWF_init : NetWF initNetState := by
  constructor
  · simp [initNetState]
  · intro e he
    simp [initNetState] at he

/-- Appending an entry whose mid is not yet seen preserves well-formedness. -/
theorem netWF_append (st : NetState) (e : MapEntry)
    (h : NetWF st) (hn : ¬ e.mid ∈ st.seen) :
    NetWF { seen := e.mid :: st.seen, maps := st.maps ++ [e] } := by
  constructor
  · rw [List.map_append, List.nodup_append]
    refine ⟨h.1, by simp, ?_⟩
    intro a ha hb
    simp only [List.map_cons, List.map_nil, List.mem_singleton] at hb
    subst hb
    obtain ⟨x, hx, hxe⟩ := List.mem_map.mp ha
    exact hn (hxe ▸ h.2 x hx)
  · intro x hx
    rcases List.mem_append.mp hx with hx1 | hx2
    · exact List.mem_cons_of_mem _ (h.2 x hx1)
    · simp only [List.mem_singleton] at hx2
      subst hx2
      exact List.mem_cons_self _ _

/-- One CSV-row iteration preserves well-formedness. -/
theorem csvRowStep_wf (st : NetState) (pair : String × String) (h : NetWF st) :
    NetWF (csvRowStep st pair) := by
  simp only [csvRowStep]
  split_ifs with hok hseen
  · exact h
  · exact netWF_append st _ h hseen
  · exact h

/-- A fold preserving a predicate. -/
theorem foldl_preserve {α β : Type} (P : α → Prop) (f : α → β → α)
    (hf : ∀ s x, P s → P (f s x)) :
    ∀ (l : List β) (s : α), P s → P (List.foldl f s l) := by
  intro l
  induction l with
  | nil => intro s hs; exact hs
  | cons x xs ih => intro s hs; exact ih (f s x) (hf s x hs)

/-- `parseMaplistCsvRow` preserves well-formedness. -/
theorem parseMaplistCsvRow_wf (st : NetState) (str : String) (h : NetWF st) :
    NetWF (parseMaplistCsvRow st str) := by
  unfold parseMaplistCsvRow
  split_ifs
  · exact h
  · exact foldl_preserve NetWF csvRowStep csvRowStep_wf _ st h

/-- `addMap` preserves well-formedness. -/
theorem addMap_wf (st : NetState) (mid : String) (title : Option String)
    (h : NetWF st) : NetWF (addMap st mid title) := by
  simp only [addMap]
  split_ifs with hf hcsv hseen
  · exact h
  · exact parseMaplistCsvRow_wf st _ h
  · exact h
  · exact netWF_append st _ h hseen

/-- Feeding any candidate sequence preserves well-formedness. -/
theorem foldAddMap_wf (st : NetState) (evts : List (String × Option String))
    (h : NetWF st) : NetWF (foldAddMap st evts) := by
  unfold foldAddMap
  exact foldl_preserve NetWF (fun a e => addMap a e.1 e.2)
    (fun s x hs => addMap_wf s x.1 x.2 hs) evts st h

/-- The scrape de-duplication yields pairwise-distinct mids, none of them in
the ambient seen-set. -/
theorem dedupEntries_spec :
    ∀ (l : List MapEntry) (seen : List String),
      ((dedupEntries seen l).map MapEntry.mid).Nodup ∧
      ∀ e ∈ dedupEntries seen l, ¬ e.mid ∈ seen := by
  intro l
  induction l with
  | nil => intro seen; exact ⟨List.nodup_nil, by intro e he; simp [dedupEntries] at he⟩
  | cons x xs ih =>
    intro seen
    unfold dedupEntries
    split_ifs with hmt hseen
    · exact ih seen
    · exact ih seen
    · obtain ⟨ih1, ih2⟩ := ih (x.mid :: seen)
      constructor
      · simp only [List.map_cons, List.nodup_cons]
        refine ⟨?_, ih1⟩
        intro hmem
        obtain ⟨e, he, hee⟩ := List.mem_map.mp hmem
        exact ih2 e he (hee ▸ List.mem_cons_self _ _)
      · intro e he
        rcases List.mem_cons.mp he with he1 | he2
        · subst he1; exact hseen
        · intro hc
          exact ih2 e he2 (List.mem_cons_of_mem _ hc)

/-- The id de-duplication of the raw-HTML scan yields distinct ids outside
the ambient seen-set. -/
theorem dedupIds_spec :
    ∀ (l : List String) (seen : List String),
      (dedupIds seen l).Nodup ∧ ∀ i ∈ dedupIds seen l, ¬ i ∈ seen := by
  intro l
  induction l with
  | nil => intro seen; exact ⟨List.nodup_nil, by intro i hi; simp [dedupIds] at hi⟩
  | cons x xs ih =>
    intro seen
    unfold dedupIds
    split_ifs with hseen
    · exact ih seen
    · obtain ⟨ih1, ih2⟩ := ih (x :: seen)
      constructor
      · refine List.nodup_cons.mpr ⟨?_, ih1⟩
        intro hmem
        exact ih2 x hmem (List.mem_cons_self _ _)
      · intro i hi
        rcases List.mem_cons.mp hi with hi1 | hi2
        · subst hi1; exact hseen
        · intro hc
          exact ih2 i hi2 (List.mem_cons_of_mem _ hc)

/-- The raw-HTML scan entries have pairwise-distinct mids. -/
theorem htmlEntries_nodup (ids : List String) :
    ((htmlEntries ids).map MapEntry.mid).Nodup := by
  unfold htmlEntries
  rw [List.map_map]
  have : (MapEntry.mid ∘ fun id =>
      ({ mid := id, title := id,
         href := "https://www.google.com/maps/d/edit?mid=" ++ id } : MapEntry)) = id := by
    funext x
    rfl
  rw [this, List.map_id]
  exact (dedupIds_spec ids []).1

/-- The frame scan yields pairwise-distinct mids. -/
theorem scanFrames_nodup (frames : List (List MapEntry)) :
    ((scanFrames frames).map MapEntry.mid).Nodup := by
  induction frames with
  | nil => simp [scanFrames]
  | cons f rest ih =>
    simp only [scanFrames]
    split_ifs with hemp
    · exact ih
    · exact (dedupEntries_spec f []).1

/-- Claim C9: the map list emitted by ListResources never contains two
entries with the same mid, and whenever the network-interception source has
yielded at least one map the emitted list is exactly the network-derived
list — the in-page hook, DOM/iframe scrape and raw-HTML fallbacks contribute
nothing in that case. -/
theorem list_dedup_network_preference :
    (∀ env : ListEnv, ((listMain env).maps.map MapEntry.mid).Nodup) ∧
    (∀ env : ListEnv, (foldAddMap initNetState env.network).maps ≠ [] →
      (listMain env).maps = (foldAddMap initNetState env.network).maps) := by
  constructor
  · intro env
    have h1 : NetWF (foldAddMap initNetState env.network) :=
      foldAddMap_wf _ _ netWF_init
    have h2 : NetWF (foldAddMap (foldAddMap initNetState env.network) env.hook1) :=
      foldAddMap_wf _ _ h1
    simp only [listMain]
    split_ifs with e1 e2
    · exact h1.1
    · exact h2.1
    · simp
  · intro env hne
    simp only [listMain]
    have he : (foldAddMap initNetState env.network).maps.isEmpty = false := by
      cases hm : (foldAddMap initNetState env.network).maps with
      | nil => exact absurd hm hne
      | cons a as => rfl
    simp [he]

/-- Witness for `list_dedup_network_preference`: a network capture with a
duplicate candidate is emitted de-duplicated and verbatim even though the
scrape fallbacks carry other entries. -/
theorem list_dedup_network_preference_witness :
    (listMain
        { network := [("mid-aaaa", some "Alpha"), ("mid-aaaa", some "Alpha"),
            ("mid-bbbb", none)],
          hook1 := [("mid-cccc", none)], hook2 := [],
          domFrames := [[{ mid := "mid-dddd", title := "D", href := "h" }]],
          iframeScrape := [], htmlIds := ["mid-eeee"] }).maps =
      (foldAddMap initNetState
        [("mid-aaaa", some "Alpha"), ("mid-aaaa", some "Alpha"), ("mid-bbbb", none)]).maps ∧
    ((listMain
        { network := [("mid-aaaa", some "Alpha"), ("mid-aaaa", some "Alpha"),
            ("mid-bbbb", none)],
          hook1 := [("mid-cccc", none)], hook2 := [],
          domFrames := [[{ mid := "mid-dddd", title := "D", href := "h" }]],
          iframeScrape := [], htmlIds := ["mid-eeee"] }).maps.map MapEntry.mid).Nodup := by
  have h := list_dedup_network_preference
  constructor
  · exact h.2
      { network := [("mid-aaaa", some "Alpha"), ("mid-aaaa", some "Alpha"),
          ("mid-bbbb", none)],
        hook1 := [("mid-cccc", none)], hook2 := [],
        domFrames := [[{ mid := "mid-dddd", title := "D", href := "h" }]],
        iframeScrape := [], htmlIds := ["mid-eeee"] }
      (by decide)
  · exact h.1
      { network := [("mid-aaaa", some "Alpha"), ("mid-aaaa", some "Alpha"),
          ("mid-bbbb", none)],
        hook1 := [("mid-cccc", none)], hook2 := [],
        domFrames := [[{ mid := "mid-dddd", title := "D", href := "h" }]],
        iframeScrape := [], htmlIds := ["mid-eeee"] }

end AddressPlotter
